import Mathlib

/-!
# Client session and validation engine (`src/static/script.js`)

A shallow embedding of the `AppState` class of `script.js`: the CPF checksum, the e-mail
pattern, the registration form check, the session operations (`setUser`, `logout`,
`validateToken`, `handleLogin`, `handleRegister`) together with the part of the page they
read and write, the toast queue with its timers, the modals and `debounce`; and of the
password strength score of `profile.js`.

Conventions of the embedding.

* A JavaScript string is the list of its UTF-16 code units (`JSString`); `length`, `charAt`
  and the regular expressions of the source (none has the `u` flag) all work on code units.
* A JavaScript number that can be `NaN` is an `Option Nat` (`none` is `NaN`); the sums of
  `isValidCPF` stay far below `2^53`, so natural-number arithmetic is exact.
* An `async` handler is run to completion against the answer of its collaborator
  (`FetchResult`); the state is passed explicitly (`World`).
* Time is a natural number of milliseconds; a timer runs at the instant it is due, and the
  timers due at one instant run in the order they were set.
-/

namespace AppState

/-! ## JavaScript strings -/

/-- A JavaScript string: the sequence of its UTF-16 code units, each a natural number. -/
abbrev JSString := List Nat

/-- UTF-16 encoding of one Unicode scalar value. -/
def utf16 (c : Char) : List Nat :=
  if c.toNat < 0x10000 then [c.toNat]
  else [0xD800 + (c.toNat - 0x10000) / 0x400, 0xDC00 + (c.toNat - 0x10000) % 0x400]

/-- The JavaScript string written as the literal `s`. -/
def js (s : String) : JSString := s.toList.flatMap utf16

/-- Character class `\d` of a JavaScript regular expression: `0` to `9`. -/
def isDigit (c : Nat) : Bool := decide (48 ≤ c) && decide (c ≤ 57)

/-- Character class `\s` of a JavaScript regular expression: the white space and line
terminator code units of ECMAScript. -/
def isSpace (c : Nat) : Bool :=
  (decide (9 ≤ c) && decide (c ≤ 13)) || c == 0x20 || c == 0xA0 || c == 0x1680 ||
  (decide (0x2000 ≤ c) && decide (c ≤ 0x200A)) || c == 0x2028 || c == 0x2029 ||
  c == 0x202F || c == 0x205F || c == 0x3000 || c == 0xFEFF

/-- The method `s.charAt(i)`: the one-unit string at index `i`, or the empty string. -/
def charAt (s : JSString) (i : Nat) : JSString :=
  match s[i]? with
  | some c => [c]
  | none => []

/-- The function `parseInt` on the strings `charAt` returns (at most one code unit): the value
of a decimal digit, and `NaN` (`none`) for the empty string and for every other unit
(white space alone, a sign alone and any other character all give `NaN`). -/
def parseInt (s : JSString) : Option Nat :=
  match s with
  | [c] => if isDigit c then some (c - 48) else none
  | _ => none

/-- Strict equality `===` of two numbers: `NaN` equals nothing, itself included. -/
def numEq (a b : Option Nat) : Bool :=
  match a, b with
  | some x, some y => x == y
  | _, _ => false

/-- The call `s.replace(/\D/g, '')`: the digits of `s`, in order. -/
def stripNonDigits (s : JSString) : JSString := s.filter isDigit

/-! ## CPF checksum -/

/-- The test `/^(\d)\1{10}$/.test(cpf)`: a digit followed by ten copies of itself. -/
def repeatedDigitRegex (cpf : JSString) : Bool :=
  match cpf with
  | [] => false
  | c :: rest => isDigit c && decide (rest.length = 10) && rest.all (fun d => d == c)

/-- The loop `for (let i = 0; i < n; i++) sum += parseInt(cpf.charAt(i)) * (w - i)`,
started from `sum = 0`. -/
def weightedSum (cpf : JSString) (n w : Nat) : Option Nat :=
  (List.range n).foldl
    (fun sum i => sum.bind (fun acc => (parseInt (charAt cpf i)).map (fun d => acc + d * (w - i))))
    (some 0)

/-- The two statements `remainder = (sum * 10) % 11` and
`if (remainder === 10 || remainder === 11) remainder = 0`. -/
def remainderOf (sum : Option Nat) : Option Nat :=
  sum.map (fun v => let remainder := (v * 10) % 11
                    if remainder = 10 ∨ remainder = 11 then 0 else remainder)

/-- The method `isValidCPF(cpf)` of `script.js`. -/
def isValidCPF (cpf : JSString) : Bool :=
  if cpf.length ≠ 11 || repeatedDigitRegex cpf then false
  else if !(numEq (remainderOf (weightedSum cpf 9 10)) (parseInt (charAt cpf 9))) then false
  else numEq (remainderOf (weightedSum cpf 10 11)) (parseInt (charAt cpf 10))

/-! ### The checksum in the words of the specification -/

/-- Value of the decimal digit at index `i` of `s` (0 outside the string). -/
def digitAt (s : JSString) (i : Nat) : Nat := (s.getD i 48) - 48

/-- The rule `r(sum) = (sum*10) mod 11`, mapped to 0 when it is 10 or 11. -/
def checkRule (sum : Nat) : Nat :=
  if (sum * 10) % 11 = 10 ∨ (sum * 10) % 11 = 11 then 0 else (sum * 10) % 11

/-- The weighted sum in the words of the specification, for any number of digits. -/
def specSum (s : JSString) (n w : Nat) : Nat := ((List.range n).map (fun i => digitAt s i * (w - i))).sum

/-- Sum of `digit[i] * (10 - i)` for `i` in `0..8`. -/
def firstSum (s : JSString) : Nat := ((List.range 9).map (fun i => digitAt s i * (10 - i))).sum

/-- Sum of `digit[i] * (11 - i)` for `i` in `0..9`. -/
def secondSum (s : JSString) : Nat := ((List.range 10).map (fun i => digitAt s i * (11 - i))).sum

/-- Every code unit of `s` is a decimal digit. -/
def allDigits (s : JSString) : Bool := s.all isDigit

/-- All code units of `s` are the same. -/
def allIdentical (s : JSString) : Bool :=
  match s with
  | [] => true
  | c :: rest => rest.all (fun d => d == c)

/-- First check digit computed from a 9-digit base. -/
def firstCheckDigit (base : JSString) : Nat := 48 + checkRule (firstSum base)

/-- Second check digit computed from the first 10 digits. -/
def secondCheckDigit (ten : JSString) : Nat := 48 + checkRule (secondSum ten)

/-- The 11-digit identifier built from a 9-digit base by the CPF algorithm. -/
def buildCPF (base : JSString) : JSString :=
  (base ++ [firstCheckDigit base]) ++ [secondCheckDigit (base ++ [firstCheckDigit base])]

end AppState


/-! ## Regular expressions

The pattern of `isValidEmail` uses character classes, concatenation and `+` only, anchored
at both ends, without back-references or look-around; for such a pattern `RegExp.test`
answers whether the whole string belongs to the language of the pattern. The matcher below
decides that by derivatives. -/

namespace AppState

/-- The regular expressions used by `script.js`, as terms. -/
inductive Regex where
  /-- The pattern that matches nothing. -/
  | zero : Regex
  /-- The pattern that matches the empty string. -/
  | eps : Regex
  /-- A character class: one code unit satisfying `p`. -/
  | cls (p : Nat → Bool) : Regex
  /-- Alternation. -/
  | alt (a b : Regex) : Regex
  /-- Concatenation. -/
  | seq (a b : Regex) : Regex
  /-- Zero or more repetitions. -/
  | star (a : Regex) : Regex

namespace Regex

/-- One or more repetitions, `a+`. -/
def plus (a : Regex) : Regex := seq a (star a)

/-- Whether the pattern matches the empty string. -/
def nullable : Regex → Bool
  | zero => false
  | eps => true
  | cls _ => false
  | alt a b => nullable a || nullable b
  | seq a b => nullable a && nullable b
  | star _ => true

/-- The pattern matching what is left of a match after the code unit `c`. -/
def deriv (c : Nat) : Regex → Regex
  | zero => zero
  | eps => zero
  | cls p => if p c then eps else zero
  | alt a b => alt (deriv c a) (deriv c b)
  | seq a b => if nullable a then alt (seq (deriv c a) b) (deriv c b) else seq (deriv c a) b
  | star a => seq (deriv c a) (star a)

/-- The call `/^r$/.test(s)`: does the whole string match the pattern. -/
def test (r : Regex) : JSString → Bool
  | [] => nullable r
  | c :: s => test (deriv c r) s

/-- The language of a pattern: the strings it matches in full. -/
def Lang : Regex → JSString → Prop
  | zero, _ => False
  | eps, s => s = []
  | cls p, s => ∃ c, s = [c] ∧ p c = true
  | alt a b, s => Lang a s ∨ Lang b s
  | seq a b, s => ∃ u v, s = u ++ v ∧ Lang a u ∧ Lang b v
  | star a, s => ∃ parts : List JSString, s = parts.flatten ∧ ∀ u ∈ parts, Lang a u

end Regex

/-- Character class `[^\s@]`. -/
def notSpaceNorAt (c : Nat) : Bool := !(isSpace c) && !(c == 64)

/-- The pattern `/^[^\s@]+@[^\s@]+\.[^\s@]+$/` of `isValidEmail`. -/
def emailRegex : Regex :=
  Regex.seq (Regex.plus (Regex.cls notSpaceNorAt))
    (Regex.seq (Regex.cls (fun c => c == 64))
      (Regex.seq (Regex.plus (Regex.cls notSpaceNorAt))
        (Regex.seq (Regex.cls (fun c => c == 46)) (Regex.plus (Regex.cls notSpaceNorAt)))))

/-- The method `isValidEmail(email)` of `script.js`. -/
def isValidEmail (email : JSString) : Bool := emailRegex.test email

/-- The split of the specification: `L + "@" + D + "." + T` with `L` and `D` non-empty and free
of white space and `@`, and `T` non-empty and free of white space (`T` may contain `@`). -/
def EmailSplitLoose (s : JSString) : Prop :=
  ∃ L D T : JSString, s = L ++ js "@" ++ D ++ js "." ++ T ∧
    L ≠ [] ∧ (∀ c ∈ L, isSpace c = false ∧ c ≠ 64) ∧
    D ≠ [] ∧ (∀ c ∈ D, isSpace c = false ∧ c ≠ 64) ∧
    T ≠ [] ∧ (∀ c ∈ T, isSpace c = false)

/-- The split the pattern accepts: as `EmailSplitLoose`, and `T` contains no `@` either. -/
def EmailSplit (s : JSString) : Prop :=
  ∃ L D T : JSString, s = L ++ js "@" ++ D ++ js "." ++ T ∧
    L ≠ [] ∧ (∀ c ∈ L, isSpace c = false ∧ c ≠ 64) ∧
    D ≠ [] ∧ (∀ c ∈ D, isSpace c = false ∧ c ≠ 64) ∧
    T ≠ [] ∧ (∀ c ∈ T, isSpace c = false ∧ c ≠ 64)

end AppState

/-! ## JavaScript values, the page and the application state -/

namespace AppState

/-- A JavaScript value as the session code meets it: `undefined`, or a value read from a JSON
body or from storage. A number is kept as its canonical decimal rendering (`String(n)`). -/
inductive JSVal where
  | undefined : JSVal
  | null : JSVal
  | bool (b : Bool) : JSVal
  | num (text : JSString) : JSVal
  | str (s : JSString) : JSVal
  /-- A plain object, by its own properties (each key once). -/
  | obj (fields : List (JSString × JSVal)) : JSVal

namespace JSVal

/-- The value is `null` or `undefined`. -/
def isNullish : JSVal → Bool
  | undefined => true
  | null => true
  | _ => false

/-- Truthiness, as tested by `if (v)`, `!v` and `v || w`. -/
def truthy : JSVal → Bool
  | undefined => false
  | null => false
  | bool b => b
  | num text => !(text == js "0") && !(text == js "NaN")
  | str s => !s.isEmpty
  | obj _ => true

/-- The conversion `String(v)`, as applied by `localStorage.setItem` and template literals. -/
def toJSString : JSVal → JSString
  | undefined => js "undefined"
  | null => js "null"
  | bool true => js "true"
  | bool false => js "false"
  | num text => text
  | str s => s
  | obj _ => js "[object Object]"

/-- The own property `key` of a value that is not nullish; `undefined` when it has none. (The
property names read by `script.js` are not built-in properties of strings, numbers or
booleans.) -/
def getField (v : JSVal) (key : JSString) : JSVal :=
  match v with
  | obj fields =>
    match fields.find? (fun kv => kv.1 == key) with
    | some kv => kv.2
    | none => undefined
  | _ => undefined

/-- The property access `v.key`; `none` is the `TypeError` thrown when `v` is `null` or
`undefined`. -/
def getProp (v : JSVal) (key : JSString) : Option JSVal :=
  if v.isNullish then none else some (v.getField key)

/-- The expression `a || b`. -/
def or (a b : JSVal) : JSVal := if a.truthy then a else b

end JSVal

/-- The `type` argument of `showToast`; the call sites pass these four literals. -/
inductive ToastType where
  | success : ToastType
  | error : ToastType
  | warning : ToastType
  | info : ToastType
  deriving DecidableEq

/-- A toast element, child of `#toast-container`. -/
structure Toast where
  /-- Identity of the DOM element (`document.createElement`). -/
  elem : Nat
  /-- The attribute `data-toast-id`, the reading of `Date.now()` at creation. -/
  toastId : Nat
  /-- The class `toast ${type}`. -/
  type : ToastType
  /-- The message put in the element. -/
  message : JSVal
  /-- Whether the element has the class `show`. -/
  shown : Bool

/-- What a pending `setTimeout` callback of the toast code does. -/
inductive TimerAction where
  /-- Callback `toast.classList.add('show')`. -/
  | addShow (elem : Nat) : TimerAction
  /-- Callback `this.closeToast(toastId)`. -/
  | closeToast (toastId : Nat) : TimerAction
  /-- Callback `toast.remove()`. -/
  | removeToast (elem : Nat) : TimerAction

/-- A pending timer: the time it is due and its callback. -/
structure Timer where
  due : Nat
  action : TimerAction

/-- A submit button: its `innerHTML` and its `disabled` flag. -/
structure Button where
  innerHTML : JSString
  disabled : Bool

/-- The object `userData` that `handleRegister` reads from the registration form; every field
is the string value of a form control. -/
structure UserData where
  full_name : JSString
  username : JSString
  email : JSString
  cpf : JSString
  phone : JSString
  city : JSString
  role : JSString
  password : JSString
  confirm_password : JSString

/-- A call of `fetch`. -/
inductive Request where
  /-- Request `GET /api/profile` with the bearer token. -/
  | profile (token : JSVal) : Request
  /-- Request `GET /api/profile/notifications?unread_only=true` with the bearer token. -/
  | notifications (token : JSVal) : Request
  /-- Request `POST /api/auth/login`. -/
  | login (loginField password : JSString) : Request
  /-- Request `POST /api/auth/register`. -/
  | register (userData : UserData) : Request
  /-- Request `GET /api/auth/check-username?username=...`. -/
  | checkUsername (username : JSString) : Request
  /-- Request `GET /api/auth/check-email?email=...`. -/
  | checkEmail (email : JSString) : Request

/-- The answer of a collaborator to one `fetch`. -/
inductive FetchResult where
  /-- The promise returned by `fetch` rejects (network failure). -/
  | rejected : FetchResult
  /-- A response arrives: `ok` is `response.ok` (status 2xx) and `body` is what
  `response.json()` resolves to, `none` when the body cannot be parsed. -/
  | response (ok : Bool) (body : Option JSVal) : FetchResult

/-- What `setFieldFeedback` leaves on a feedback element: its `textContent` and its
`className`. -/
structure FieldFeedback where
  textContent : JSString
  className : JSString
  deriving DecidableEq

/-- The `AppState` instance together with the storage, the document and the network log it
works on. -/
structure World where
  /-- Field `this.user`. -/
  user : JSVal
  /-- Field `this.token`. -/
  token : JSVal
  /-- Field `this.isLoggedIn`. -/
  isLoggedIn : Bool
  /-- The item `token` of `localStorage`, `none` when absent. -/
  storage : Option JSString
  /-- The reading of `Date.now()`. -/
  now : Nat
  /-- The identity the next created element receives. -/
  nextElem : Nat
  /-- The ids of the elements of the document (what `getElementById` finds). -/
  ids : List JSString
  /-- Pairs (element id, class name) of the classes set on elements with an id. -/
  classes : List (JSString × JSString)
  /-- The style `document.body.style.overflow`. -/
  bodyOverflow : JSString
  /-- The value last assigned to `textContent` of `#user-name`. -/
  userNameText : Option JSVal
  /-- The value last assigned to `src` of `#user-avatar-img`. -/
  userAvatarSrc : Option JSString
  /-- The children of `#toast-container`, oldest first. -/
  toasts : List Toast
  /-- The pending timers. -/
  timers : List Timer
  /-- The submit button of the login form, `none` when the form has none. -/
  loginBtn : Option Button
  /-- The submit button of the registration form, `none` when the form has none. -/
  registerBtn : Option Button
  /-- The `fetch` calls made so far, oldest first. -/
  requests : List Request
  /-- The feedback elements written by `setFieldFeedback`, by element id, with what was
  written last. -/
  feedback : List (JSString × FieldFeedback)

/-- How a method ends: it returns, or an exception leaves it. The state reached is kept in
both cases. -/
inductive Outcome where
  | done (w : World) : Outcome
  | threw (w : World) : Outcome

namespace Outcome

/-- The state at the end of the method. -/
def world : Outcome → World
  | done w => w
  | threw w => w

/-- Whether an exception left the method. -/
def hasThrown : Outcome → Bool
  | done _ => false
  | threw _ => true

/-- Sequencing: run `f` after a method that returned; an exception skips `f`. -/
def andThen (o : Outcome) (f : World → Outcome) : Outcome :=
  match o with
  | done w => f w
  | threw w => threw w

/-- The statement `try { o } catch (error) { handler }`. -/
def catchWith (o : Outcome) (handler : World → Outcome) : Outcome :=
  match o with
  | done w => done w
  | threw w => handler w

/-- The clause `finally { cleanup }`, for a `cleanup` that cannot throw. -/
def finallyDo (o : Outcome) (cleanup : World → World) : Outcome :=
  match o with
  | done w => done (cleanup w)
  | threw w => threw (cleanup w)

end Outcome

namespace World

/-- The test `document.getElementById(id)` finds an element. -/
def hasElement (w : World) (id : JSString) : Bool := w.ids.contains id

/-- The test `classList.contains(cls)` on the element `id`. -/
def hasClass (w : World) (id cls : JSString) : Bool := w.classes.contains (id, cls)

/-- The call `classList.add(cls)` on the element `id`. -/
def addClass (w : World) (id cls : JSString) : World :=
  if w.classes.contains (id, cls) then w else { w with classes := w.classes ++ [(id, cls)] }

/-- The call `classList.remove(cls)` on the element `id`. -/
def removeClass (w : World) (id cls : JSString) : World :=
  { w with classes := w.classes.filter (fun p => !(p == (id, cls))) }

/-- A call of `fetch`: the request joins the log. -/
def send (w : World) (request : Request) : World :=
  { w with requests := w.requests ++ [request] }

/-- Assignment of `innerHTML` and `disabled` of the login submit button. -/
def setLoginBtn (w : World) (innerHTML : JSString) (disabled : Bool) : World :=
  { w with loginBtn := some { innerHTML := innerHTML, disabled := disabled } }

/-- Assignment of `innerHTML` and `disabled` of the registration submit button. -/
def setRegisterBtn (w : World) (innerHTML : JSString) (disabled : Bool) : World :=
  { w with registerBtn := some { innerHTML := innerHTML, disabled := disabled } }

end World

/-! ## Toasts and modals -/

/-- The method `showToast(message, type, duration)`; `duration` is 5000 where the call gives
none. -/
def showToast (w : World) (message : JSVal) (type : ToastType) (duration : Nat) : World :=
  if !(w.hasElement (js "toast-container")) then w
  else
    let toastId := w.now
    let toast : Toast :=
      { elem := w.nextElem, toastId := toastId, type := type, message := message, shown := false }
    { w with
      nextElem := w.nextElem + 1,
      toasts := w.toasts ++ [toast],
      timers := w.timers ++
        [{ due := w.now + 100, action := TimerAction.addShow toast.elem },
         { due := w.now + duration, action := TimerAction.closeToast toastId }] }

/-- The method `openModal(modalId)`. -/
def openModal (w : World) (modalId : JSString) : World :=
  if w.hasElement modalId then
    { w.addClass modalId (js "active") with bodyOverflow := js "hidden" }
  else w

/-- The method `closeModal(modalId)`. -/
def closeModal (w : World) (modalId : JSString) : World :=
  if w.hasElement modalId then
    { w.removeClass modalId (js "active") with bodyOverflow := js "" }
  else w

/-! ## Session -/

/-- The method `updateUserInfo()`. -/
def updateUserInfo (w : World) : World :=
  if !w.user.truthy then w
  else
    let name := (w.user.getField (js "full_name")).or (w.user.getField (js "username"))
    let picture := w.user.getField (js "profile_picture")
    let w1 := if w.hasElement (js "user-name") then { w with userNameText := some name } else w
    if w1.hasElement (js "user-avatar-img") && picture.truthy then
      { w1 with userAvatarSrc := some (js "/" ++ picture.toJSString) }
    else w1

/-- The method `updateUI()`. A missing `#navbar` or `#user-navbar` makes the access to its
`classList` throw. -/
def updateUI (w : World) : Outcome :=
  if w.isLoggedIn then
    if !(w.hasElement (js "navbar")) then Outcome.threw w
    else
      let w1 := w.addClass (js "navbar") (js "hidden")
      if !(w1.hasElement (js "user-navbar")) then Outcome.threw w1
      else Outcome.done (updateUserInfo (w1.removeClass (js "user-navbar") (js "hidden")))
  else
    if !(w.hasElement (js "navbar")) then Outcome.threw w
    else
      let w1 := w.removeClass (js "navbar") (js "hidden")
      if !(w1.hasElement (js "user-navbar")) then Outcome.threw w1
      else Outcome.done (w1.addClass (js "user-navbar") (js "hidden"))

/-- The method `loadNotifications()` up to its `fetch`: the request is sent when the user is
logged in. (Its answer only updates the notification badge, which is not part of the state.) -/
def loadNotifications (w : World) : World :=
  if !w.isLoggedIn then w
  else w.send (Request.notifications w.token)

/-- The method `setUser(user)`. -/
def setUser (w : World) (user : JSVal) : Outcome :=
  (updateUI { w with user := user, isLoggedIn := true }).andThen
    (fun w1 => Outcome.done (loadNotifications w1))

/-- The method `logout()`. -/
def logout (w : World) : Outcome :=
  (updateUI { w with user := JSVal.null, token := JSVal.null, isLoggedIn := false,
                     storage := none }).andThen
    (fun w1 => Outcome.done
      (showToast w1 (JSVal.str (js "Você foi desconectado")) ToastType.info 5000))

/-- The first part of `validateToken()`: the profile request is sent. -/
def validateTokenSend (w : World) : World :=
  w.send (Request.profile w.token)

/-- The rest of `validateToken()`, run when the collaborator has answered with `r`. -/
def validateTokenReceive (w : World) (r : FetchResult) : Outcome :=
  Outcome.catchWith
    (match r with
     | FetchResult.rejected => Outcome.threw w
     | FetchResult.response ok body =>
       if ok then
         match body with
         | none => Outcome.threw w
         | some data =>
           match data.getProp (js "profile") with
           | none => Outcome.threw w
           | some profile => setUser w profile
       else logout w)
    (fun w1 => logout w1)

/-- The method `validateToken()` against the answer `r` of the profile lookup. -/
def validateToken (w : World) (r : FetchResult) : Outcome :=
  validateTokenReceive (validateTokenSend w) r

/-- The call `localStorage.getItem('token')`: the stored string, or `null`. -/
def getItemToken (w : World) : JSVal :=
  match w.storage with
  | some t => JSVal.str t
  | none => JSVal.null

/-- The constructor of `AppState`, up to the point where `new AppState()` returns: the fields
are initialised and `init()` sends the profile request when the stored token is truthy. (The
event listeners `init()` registers and the loading screen are not part of the state, and the
field `notifications` is never read.) -/
def construct (w : World) : World :=
  let w1 : World := { w with user := JSVal.null, token := getItemToken w, isLoggedIn := false }
  if w1.token.truthy then validateTokenSend w1 else w1

/-- The label of the login button while the request is in flight. -/
def loginBusyLabel : JSString := js "<i class=\"bi bi-hourglass-split\"></i> Entrando..."

/-- The label of the registration button while the request is in flight. -/
def registerBusyLabel : JSString := js "<i class=\"bi bi-hourglass-split\"></i> Criando conta..."

/-- The method `handleLogin(e)` for the field values `loginField` and `password` of the form,
against the answer `r` of the authentication collaborator. (The call `form.reset()` clears the
form controls, which are arguments here and not part of the state.) -/
def handleLogin (w : World) (loginField password : JSString) (r : FetchResult) : Outcome :=
  if loginField.isEmpty || password.isEmpty then
    Outcome.done
      (showToast w (JSVal.str (js "Por favor, preencha todos os campos")) ToastType.error 5000)
  else
    match w.loginBtn with
    | none => Outcome.threw w
    | some submitBtn =>
      let originalText := submitBtn.innerHTML
      let w1 := w.setLoginBtn loginBusyLabel true
      let w2 := w1.send (Request.login loginField password)
      Outcome.finallyDo
        (Outcome.catchWith
          (match r with
           | FetchResult.rejected => Outcome.threw w2
           | FetchResult.response ok body =>
             match body with
             | none => Outcome.threw w2
             | some data =>
               if ok then
                 match data.getProp (js "access_token") with
                 | none => Outcome.threw w2
                 | some accessToken =>
                   let w3 : World :=
                     { w2 with token := accessToken, storage := some accessToken.toJSString }
                   (setUser w3 (data.getField (js "user"))).andThen
                     (fun w4 => Outcome.done
                       (showToast (closeModal w4 (js "login-modal"))
                         (JSVal.str (js "Login realizado com sucesso!")) ToastType.success 5000))
               else
                 match data.getProp (js "message") with
                 | none => Outcome.threw w2
                 | some message =>
                   Outcome.done
                     (showToast w2 (message.or (JSVal.str (js "Erro ao fazer login")))
                       ToastType.error 5000))
          (fun w5 => Outcome.done
            (showToast w5 (JSVal.str (js "Erro de conexão. Tente novamente.")) ToastType.error
              5000)))
        (fun w6 => w6.setLoginBtn originalText false)

/-! ## Registration -/

/-- One step `if (test) { errors.push(message); }` of `validateRegisterForm`. -/
def pushIf (errors : List JSString) (test : Bool) (message : JSString) : List JSString :=
  if test then errors ++ [message] else errors

/-- The array `errors` built by `validateRegisterForm`: one `push` per failing test. -/
def registerErrors (userData : UserData) : List JSString :=
  let errors : List JSString := []
  let errors := pushIf errors
    (userData.full_name.isEmpty || decide (userData.full_name.length < 2))
    (js "Nome completo deve ter pelo menos 2 caracteres")
  let errors := pushIf errors
    (userData.username.isEmpty || decide (userData.username.length < 3))
    (js "Nome de usuário deve ter pelo menos 3 caracteres")
  let errors := pushIf errors (!(isValidEmail userData.email)) (js "Email inválido")
  let errors := pushIf errors (!(isValidCPF (stripNonDigits userData.cpf))) (js "CPF inválido")
  let errors := pushIf errors userData.city.isEmpty (js "Selecione uma cidade")
  let errors := pushIf errors userData.role.isEmpty (js "Selecione o tipo de usuário")
  let errors := pushIf errors
    (userData.password.isEmpty || decide (userData.password.length < 6))
    (js "Senha deve ter pelo menos 6 caracteres")
  let errors := pushIf errors (userData.password != userData.confirm_password)
    (js "Senhas não conferem")
  errors

/-- The method `validateRegisterForm(userData)`: the returned boolean and the state after. -/
def validateRegisterForm (w : World) (userData : UserData) : Bool × World :=
  match registerErrors userData with
  | [] => (true, w)
  | first :: _ => (false, showToast w (JSVal.str first) ToastType.error 5000)

/-- The method `handleRegister(e)` for the form values `userData`, against the answer `r` of
the registration collaborator. -/
def handleRegister (w : World) (userData : UserData) (r : FetchResult) : Outcome :=
  let checked := validateRegisterForm w userData
  if !checked.1 then Outcome.done checked.2
  else
    let w0 := checked.2
    match w0.registerBtn with
    | none => Outcome.threw w0
    | some submitBtn =>
      let originalText := submitBtn.innerHTML
      let w1 := w0.setRegisterBtn registerBusyLabel true
      let w2 := w1.send (Request.register userData)
      Outcome.finallyDo
        (Outcome.catchWith
          (match r with
           | FetchResult.rejected => Outcome.threw w2
           | FetchResult.response ok body =>
             match body with
             | none => Outcome.threw w2
             | some data =>
               if ok then
                 Outcome.done
                   (openModal
                     (closeModal
                       (showToast w2
                         (JSVal.str (js "Conta criada com sucesso! Faça login para continuar."))
                         ToastType.success 5000)
                       (js "register-modal"))
                     (js "login-modal"))
               else
                 match data.getProp (js "message") with
                 | none => Outcome.threw w2
                 | some message =>
                   Outcome.done
                     (showToast w2 (message.or (JSVal.str (js "Erro ao criar conta")))
                       ToastType.error 5000))
          (fun w5 => Outcome.done
            (showToast w5 (JSVal.str (js "Erro de conexão. Tente novamente.")) ToastType.error
              5000)))
        (fun w6 => w6.setRegisterBtn originalText false)

end AppState

/-! ### The registration rules in the words of the specification -/

namespace AppState

/-- The eight registration rules: name of length at least 2, username of length at least 3,
valid e-mail, valid CPF once the non-digits are removed, city chosen, role chosen, password of
length at least 6, and confirmation equal to the password. -/
def RegisterRulesHold (u : UserData) : Prop :=
  2 ≤ u.full_name.length ∧ 3 ≤ u.username.length ∧ isValidEmail u.email = true ∧
  isValidCPF (stripNonDigits u.cpf) = true ∧ u.city ≠ [] ∧ u.role ≠ [] ∧
  6 ≤ u.password.length ∧ u.password = u.confirm_password

/-- The eight rules in their fixed order, each with whether it holds and its message. -/
def registerRules (u : UserData) : List (Bool × JSString) :=
  [(decide (2 ≤ u.full_name.length), js "Nome completo deve ter pelo menos 2 caracteres"),
   (decide (3 ≤ u.username.length), js "Nome de usuário deve ter pelo menos 3 caracteres"),
   (isValidEmail u.email, js "Email inválido"),
   (isValidCPF (stripNonDigits u.cpf), js "CPF inválido"),
   (decide (u.city ≠ []), js "Selecione uma cidade"),
   (decide (u.role ≠ []), js "Selecione o tipo de usuário"),
   (decide (6 ≤ u.password.length), js "Senha deve ter pelo menos 6 caracteres"),
   (decide (u.password = u.confirm_password), js "Senhas não conferem")]

/-- The message of the first rule that fails, in the fixed order; `none` when all hold. -/
def firstFailingMessage (u : UserData) : Option JSString :=
  ((registerRules u).find? (fun rule => !rule.1)).map (fun rule => rule.2)

/-- A registration form that passes every rule. -/
def sampleUserData : UserData :=
  { full_name := js "Ana Lima", username := js "analima", email := js "ana@example.org",
    cpf := js "111.444.777-35", phone := js "", city := js "Recife", role := js "citizen",
    password := js "segredo1", confirm_password := js "segredo1" }

/-- A page with the elements the session code looks up, no user logged in and a token in
storage. -/
def samplePage : World :=
  { user := JSVal.null, token := JSVal.null, isLoggedIn := false, storage := some (js "t0"),
    now := 1000, nextElem := 0,
    ids := [js "navbar", js "user-navbar", js "toast-container", js "login-modal",
            js "register-modal"],
    classes := [(js "user-navbar", js "hidden"), (js "login-modal", js "active")],
    bodyOverflow := js "hidden", userNameText := none, userAvatarSrc := none,
    toasts := [], timers := [],
    loginBtn := some { innerHTML := js "Entrar", disabled := false },
    registerBtn := some { innerHTML := js "Criar conta", disabled := false },
    requests := [], feedback := [] }

end AppState

/-! ### Session properties in the words of the specification -/

namespace AppState

/-- The session invariant: `isLoggedIn` is true exactly when neither `token` nor `user` is
null (or undefined). -/
def SessionInv (w : World) : Prop :=
  w.isLoggedIn = true ↔ (w.token.isNullish = false ∧ w.user.isNullish = false)

/-- The value a 2xx answer with a parsed, non-null body gives for the property `key`; `none`
for every other answer. -/
def FetchResult.okField (r : FetchResult) (key : JSString) : Option JSVal :=
  match r with
  | FetchResult.response true (some data) => data.getProp key
  | _ => none

/-- Where a 2xx answer gives a value for `key`, that value is neither null nor undefined. -/
def FetchResult.SuppliesNonNull (r : FetchResult) (key : JSString) : Prop :=
  ∀ v, r.okField key = some v → v.isNullish = false

/-- The answers that give `validateToken` no object to read `profile` from: the request
rejects, the response is not 2xx, or the body of a 2xx response cannot be parsed or parses to
`null`. Every other 2xx body, whatever its shape, is read with `data.profile`. -/
def FetchResult.givesNoData : FetchResult → Bool
  | FetchResult.rejected => true
  | FetchResult.response ok body =>
    !ok || (match body with
            | none => true
            | some data => data.isNullish)

/-- The session fields and the persisted token. -/
def sessionOf (w : World) : JSVal × JSVal × Bool × Option JSString :=
  (w.user, w.token, w.isLoggedIn, w.storage)

/-- The modal `id` is open: the element exists and has the class `active`. -/
def isModalOpen (w : World) (id : JSString) : Bool :=
  w.hasElement id && w.hasClass id (js "active")

/-- A 2xx body of the profile lookup whose `profile` is `null`. -/
def nullProfileBody : JSVal := JSVal.obj [(js "profile", JSVal.null)]

/-- A 2xx body of the profile lookup that parses to the empty object. -/
def emptyBody : JSVal := JSVal.obj []

/-- The sample page after the constructor has read the stored token "t0" into `token`, before
`init()` calls `validateToken()`. -/
def persistedTokenPage : World := { samplePage with token := JSVal.str (js "t0") }

/-- The state after construction on `samplePage` followed by a 2xx profile answer whose
`profile` is `null`. -/
def nullProfileWorld : World :=
  (validateTokenReceive (construct samplePage)
    (FetchResult.response true (some nullProfileBody))).world

/-- A user profile as the collaborators return it. -/
def sampleUser : JSVal :=
  JSVal.obj [(js "id", JSVal.num (js "7")), (js "username", JSVal.str (js "analima")),
             (js "full_name", JSVal.str (js "Ana Lima"))]

/-- The state after `logout()` on `samplePage` followed by `setUser(sampleUser)`. -/
def setUserAfterLogoutWorld : World := (setUser (logout samplePage).world sampleUser).world

/-- A 2xx body of the login collaborator. -/
def sampleLoginBody : JSVal :=
  JSVal.obj [(js "access_token", JSVal.str (js "t1")), (js "user", sampleUser)]

/-- A registration form whose username is too short and whose e-mail is malformed. -/
def badUserData : UserData :=
  { sampleUserData with username := js "an", email := js "ana@example" }

end AppState

/-! ## Toast lifecycle and timers -/

namespace AppState

/-- The class `show` of the element `elem` is set or removed; the other toasts are left
alone. -/
def Toast.setShown (t : Toast) (elem : Nat) (shown : Bool) : Toast :=
  if t.elem == elem then { t with shown := shown } else t

/-- The method `closeToast(toastId)`: `querySelector` finds the first toast carrying the id;
it loses the class `show` and its removal is scheduled 300 ms later. -/
def closeToast (w : World) (toastId : Nat) : World :=
  match w.toasts.find? (fun t => t.toastId == toastId) with
  | none => w
  | some toast =>
    { w with
      toasts := w.toasts.map (fun t => t.setShown toast.elem false),
      timers := w.timers ++ [{ due := w.now + 300, action := TimerAction.removeToast toast.elem }] }

/-- The callback of a timer runs. -/
def fireTimer (w : World) (action : TimerAction) : World :=
  match action with
  | TimerAction.addShow elem => { w with toasts := w.toasts.map (fun t => t.setShown elem true) }
  | TimerAction.closeToast toastId => closeToast w toastId
  | TimerAction.removeToast elem =>
    { w with toasts := w.toasts.filter (fun t => !(t.elem == elem)) }

/-- The least of a list of times, `none` for the empty list. -/
def leastTime : List Nat → Option Nat
  | [] => none
  | d :: rest =>
    match leastTime rest with
    | none => some d
    | some m => some (min d m)

/-- The next instant, not after `t`, at which a pending timer is due. -/
def nextDue (timers : List Timer) (t : Nat) : Option Nat :=
  leastTime ((timers.filter (fun tm => decide (tm.due ≤ t))).map (fun tm => tm.due))

/-- The clock reaches the instant `d`: the timers due at `d` run, in the order they were
set. -/
def runInstant (w : World) (d : Nat) : World :=
  (w.timers.filter (fun tm => tm.due == d)).foldl (fun acc tm => fireTimer acc tm.action)
    { w with now := d, timers := w.timers.filter (fun tm => !(tm.due == d)) }

/-- Time passes up to `t`: the instants at which timers are due are run in order, at most
`fuel` of them. -/
def advance (fuel : Nat) (w : World) (t : Nat) : World :=
  match fuel with
  | 0 => w
  | fuel + 1 =>
    match nextDue w.timers t with
    | none => { w with now := max w.now t }
    | some d => advance fuel (runInstant w d) t

/-- The timers of `b` are those of `a` with one more copy of `r` right after a copy of `r`;
the rest of the state is the same. -/
def ExtraTimer (r : Timer) (a b : World) : Prop :=
  ∃ pre post, a.timers = pre ++ r :: post ∧ b = { a with timers := pre ++ r :: r :: post }

/-- The ids of the toasts in the queue, oldest first. -/
def toastIds (w : World) : List Nat := w.toasts.map (fun t => t.toastId)

/-- The elements of the toasts in the queue, oldest first. -/
def toastElems (w : World) : List Nat := w.toasts.map (fun t => t.elem)

/-- Two error toasts shown at the same reading of the clock, as `handleImageFiles` of
`dashboard.js` does for two files that are not images. -/
def twoToastWorld : World :=
  showToast
    (showToast samplePage (JSVal.str (js "Apenas imagens são permitidas")) ToastType.error 5000)
    (JSVal.str (js "Apenas imagens são permitidas")) ToastType.error 5000

/-- One toast shown on the sample page. -/
def oneToastWorld : World :=
  showToast samplePage (JSVal.str (js "Voto adicionado!")) ToastType.success 5000

/-! ### Modals and the scroll lock -/

/-- The page scroll is locked: `document.body.style.overflow` is `hidden`. -/
def scrollLocked (w : World) : Bool := w.bodyOverflow == js "hidden"

/-- The scroll-lock invariant: the scroll is locked exactly when some modal is open. -/
def LockInv (w : World) : Prop := scrollLocked w = true ↔ ∃ id, isModalOpen w id = true

/-- A page with two modals `a` and `b`, both closed, and the scroll free. -/
def twoModalPage : World :=
  { samplePage with ids := [js "a", js "b", js "toast-container"], classes := [],
                    bodyOverflow := js "" }

end AppState

/-! ## Debounce -/

namespace AppState

/-- The state of one wrapper returned by `debounce(func, wait)`, with arguments of type `α`. -/
structure Debounced (α : Type) where
  /-- The parameter `wait`. -/
  wait : Nat
  /-- The variable `timeout`: the id of the timer set last, `none` while undefined. -/
  timeout : Option Nat
  /-- The id the next `setTimeout` returns. -/
  nextId : Nat
  /-- The timers of the wrapper that are set and neither run nor cleared: id, time due and
  the arguments captured by `later`. -/
  pending : List (Nat × Nat × α)
  /-- The calls of `func` made so far: time and arguments, oldest first. -/
  runs : List (Nat × α)

namespace Debounced

/-- The call `debounce(func, wait)`: a fresh wrapper. -/
def create {α : Type} (wait : Nat) : Debounced α :=
  { wait := wait, timeout := none, nextId := 0, pending := [], runs := [] }

/-- The call `clearTimeout(timeout)`. -/
def clearTimeout {α : Type} (s : Debounced α) : Debounced α :=
  { s with pending := s.pending.filter (fun p => !(some p.1 == s.timeout)) }

/-- The wrapper is called at time `t` with `args`: the timer set before is cleared and
`later` is set to run `wait` later. -/
def invoke {α : Type} (s : Debounced α) (t : Nat) (args : α) : Debounced α :=
  { s.clearTimeout with
    timeout := some s.nextId,
    nextId := s.nextId + 1,
    pending := s.clearTimeout.pending ++ [(s.nextId, t + s.wait, args)] }

/-- The callback `later` of the timer `id` runs at time `due`: `clearTimeout(timeout)`, then
`func(...args)`. -/
def later {α : Type} (s : Debounced α) (id due : Nat) (args : α) : Debounced α :=
  let s1 : Debounced α := { s with pending := s.pending.filter (fun p => !(p.1 == id)) }
  { s1.clearTimeout with runs := s1.runs ++ [(due, args)] }

/-- Time passes up to `t`: the timers due by then run, in the order they were set, unless
cleared meanwhile. -/
def elapse {α : Type} (s : Debounced α) (t : Nat) : Debounced α :=
  (s.pending.filter (fun p => decide (p.2.1 ≤ t))).foldl
    (fun acc p => if acc.pending.any (fun q => q.1 == p.1) then acc.later p.1 p.2.1 p.2.2 else acc)
    s

/-- The wrapper is called at the times and with the arguments of `calls`, in order. -/
def runCalls {α : Type} (s : Debounced α) (calls : List (Nat × α)) : Debounced α :=
  calls.foldl (fun acc call => (acc.elapse call.1).invoke call.1 call.2) s

end Debounced

/-- A burst: the calls are in time order and each comes less than `wait` after the one
before. -/
def IsBurst {α : Type} (wait : Nat) : List (Nat × α) → Prop
  | [] => True
  | [_] => True
  | a :: b :: rest => a.1 ≤ b.1 ∧ b.1 < a.1 + wait ∧ IsBurst wait (b :: rest)

/-! ## Password strength (`profile.js`) -/

/-- Character class `[a-z]`. -/
def isLower (c : Nat) : Bool := decide (97 ≤ c) && decide (c ≤ 122)

/-- Character class `[A-Z]`. -/
def isUpper (c : Nat) : Bool := decide (65 ≤ c) && decide (c ≤ 90)

/-- Character class `[^A-Za-z0-9]`. -/
def isSpecial (c : Nat) : Bool := !(isUpper c || isLower c || isDigit c)

/-- One step `if (test) strength++; else feedback.push(name);` of `updatePasswordStrength`. -/
def scoreStep (acc : Nat × List JSString) (test : Bool) (name : JSString) : Nat × List JSString :=
  if test then (acc.1 + 1, acc.2) else (acc.1, acc.2 ++ [name])

/-- The variables `strength` and `feedback` of `updatePasswordStrength(password)` after its
five tests; an unanchored test such as `/[a-z]/.test(password)` asks whether some code unit
is in the class. -/
def passwordScore (password : JSString) : Nat × List JSString :=
  let acc : Nat × List JSString := (0, [])
  let acc := scoreStep acc (decide (password.length ≥ 8)) (js "Pelo menos 8 caracteres")
  let acc := scoreStep acc (password.any isLower) (js "Letra minúscula")
  let acc := scoreStep acc (password.any isUpper) (js "Letra maiúscula")
  let acc := scoreStep acc (password.any isDigit) (js "Número")
  let acc := scoreStep acc (password.any isSpecial) (js "Caractere especial")
  acc

/-- The array `levels`. -/
def strengthLevels : List JSString :=
  [js "Muito fraca", js "Fraca", js "Regular", js "Boa", js "Muito forte"]

/-- The array `colors`. -/
def strengthColors : List JSString :=
  [js "#ef4444", js "#f97316", js "#eab308", js "#22c55e", js "#16a34a"]

/-- The expression `array[strength - 1] || fallback`. -/
def levelEntry (array : List JSString) (strength : Nat) (fallback : JSString) : JSString :=
  if strength = 0 then fallback
  else
    match array[strength - 1]? with
    | some entry => if entry.isEmpty then fallback else entry
    | none => fallback

/-- What `updatePasswordStrength` writes into `#password-strength`: the level, its colour and
label, and the names of the missing criteria. -/
structure StrengthView where
  strength : Nat
  color : JSString
  label : JSString
  feedback : List JSString

/-- The method `updatePasswordStrength(password)` of `profile.js`; `hasIndicator` tells whether
the page has `#password-strength`, and `none` is the early return without it. -/
def updatePasswordStrength (hasIndicator : Bool) (password : JSString) : Option StrengthView :=
  if !hasIndicator then none
  else
    let score := passwordScore password
    some { strength := score.1,
           color := levelEntry strengthColors score.1 (js "#ef4444"),
           label := levelEntry strengthLevels score.1 (js "Muito fraca"),
           feedback := score.2 }

/-- The five criteria of the specification, in order: length at least 8, a lowercase letter,
an uppercase letter, a digit, a character that is neither letter nor digit. -/
def strengthCriteria (password : JSString) : List Bool :=
  [decide (8 ≤ password.length),
   decide (∃ c ∈ password, 97 ≤ c ∧ c ≤ 122),
   decide (∃ c ∈ password, 65 ≤ c ∧ c ≤ 90),
   decide (∃ c ∈ password, 48 ≤ c ∧ c ≤ 57),
   decide (∃ c ∈ password, ¬ ((97 ≤ c ∧ c ≤ 122) ∨ (65 ≤ c ∧ c ≤ 90) ∨ (48 ≤ c ∧ c ≤ 57)))]

/-- The number of satisfied criteria. -/
def satisfiedCount (password : JSString) : Nat := (strengthCriteria password).count true

end AppState

/-! ### Login failures in the words of the specification -/

namespace AppState

/-- The fallback of the `||` in the non-2xx branch of `handleLogin`. -/
def loginFallback : JSVal := JSVal.str (js "Erro ao fazer login")

/-- The message of the `catch` block of `handleLogin`. -/
def connectionError : JSVal := JSVal.str (js "Erro de conexão. Tente novamente.")

/-- The text the specification gives to the toast of a non-2xx login answer: the `message`
field of the response when it has one, the generic fallback otherwise. -/
def claimedLoginErrorText (body : Option JSVal) : JSVal :=
  match body with
  | some data =>
    match data.getProp (js "message") with
    | some message => message.or loginFallback
    | none => loginFallback
  | none => loginFallback

/-- The text `handleLogin` gives to the toast of a non-2xx answer: the `message` field or the
fallback when the body was parsed to a value that is not null, the message of the `catch`
block when the body cannot be read. -/
def loginErrorText (body : Option JSVal) : JSVal :=
  match body with
  | some data =>
    match data.getProp (js "message") with
    | some message => message.or loginFallback
    | none => connectionError
  | none => connectionError

/-- A non-2xx body of the login collaborator with a message. -/
def sampleErrorBody : JSVal := JSVal.obj [(js "message", JSVal.str (js "Credenciais inválidas"))]

end AppState

namespace AppState

/-- The state after `open("a")`, `open("b")`, `close("a")` on the page with two modals. -/
def openOpenCloseWorld : World :=
  closeModal (openModal (openModal twoModalPage (js "a")) (js "b")) (js "a")

/-- The state after `open("a")`, `open("a")`, `close("a")` on the page with two modals. -/
def openTwiceCloseWorld : World :=
  closeModal (openModal (openModal twoModalPage (js "a")) (js "a")) (js "a")

end AppState

namespace AppState

/-- The wrapper has not run `func` yet and exactly one timer is pending, the one set by the
call at time `t` with `args`. -/
def Debounced.Armed {α : Type} (s : Debounced α) (wait t : Nat) (args : α) : Prop :=
  s.wait = wait ∧ s.runs = [] ∧ ∃ id, s.timeout = some id ∧ s.pending = [(id, t + wait, args)]

end AppState

/-! ## CPF formatting and field feedback -/

namespace AppState

/-- The replacement `$1.$2.$3-$4` for eleven matched digits. -/
def cpfGroups (digits : JSString) : JSString :=
  digits.take 3 ++ js "." ++ (digits.drop 3).take 3 ++ js "." ++ (digits.drop 6).take 3 ++
    js "-" ++ (digits.drop 9).take 2

/-- The call `s.replace(/(\d{3})(\d{3})(\d{3})(\d{2})/, '$1.$2.$3-$4')`: the leftmost run of
eleven digits is replaced; without such a run the string is returned as it is. -/
def replaceCpfPattern : JSString → JSString
  | [] => []
  | c :: rest =>
    if decide (((c :: rest).take 11).length = 11) && ((c :: rest).take 11).all isDigit then
      cpfGroups ((c :: rest).take 11) ++ (c :: rest).drop 11
    else c :: replaceCpfPattern rest

/-- The method `formatCPF(value)` of `script.js`. -/
def formatCPF (value : JSString) : JSString := replaceCpfPattern (stripNonDigits value)

/-- The method `setFieldFeedback(element, message, type)` on the element with id `element`. -/
def setFieldFeedback (w : World) (element message type : JSString) : World :=
  { w with feedback :=
      (element, { textContent := message, className := js "field-feedback " ++ type }) ::
        w.feedback.filter (fun p => !(p.1 == element)) }

/-- What was written last on the feedback element `element`, `none` when nothing was. -/
def World.fieldFeedback (w : World) (element : JSString) : Option FieldFeedback :=
  (w.feedback.find? (fun p => p.1 == element)).map (fun p => p.2)

/-- A high surrogate code unit. -/
def isHighSurrogate (c : Nat) : Bool := decide (0xD800 ≤ c) && decide (c ≤ 0xDBFF)

/-- A low surrogate code unit. -/
def isLowSurrogate (c : Nat) : Bool := decide (0xDC00 ≤ c) && decide (c ≤ 0xDFFF)

/-- Whether `encodeURIComponent(s)` returns: it throws a `URIError` on a surrogate that is
not part of a pair. -/
def encodable : JSString → Bool
  | [] => true
  | [c] => !(isHighSurrogate c) && !(isLowSurrogate c)
  | c :: d :: rest =>
    if isHighSurrogate c then isLowSurrogate d && encodable rest
    else if isLowSurrogate c then false
    else encodable (d :: rest)

/-- The `try` block shared by `validateUsername` and `validateEmail`, after the request was
built: the request is sent, the body of the answer is parsed and its `available` decides
between the two messages; the `catch` block writes the empty feedback. The status of the
response is not looked at. -/
def availabilityFeedback (w : World) (element : JSString) (request : Request) (r : FetchResult)
    (freeMessage takenMessage : JSString) : World :=
  Outcome.world
    (Outcome.catchWith
      (match r with
       | FetchResult.rejected => Outcome.threw (w.send request)
       | FetchResult.response _ body =>
         match body with
         | none => Outcome.threw (w.send request)
         | some data =>
           match data.getProp (js "available") with
           | none => Outcome.threw (w.send request)
           | some available =>
             if available.truthy then
               Outcome.done (setFieldFeedback (w.send request) element freeMessage (js "success"))
             else
               Outcome.done (setFieldFeedback (w.send request) element takenMessage (js "error")))
      (fun w1 => Outcome.done (setFieldFeedback w1 element (js "") (js ""))))

/-- The method `validateUsername(username)` against the answer `r` of the lookup. -/
def validateUsername (w : World) (username : JSString) (r : FetchResult) : World :=
  if !(w.hasElement (js "username-feedback")) then w
  else if username.isEmpty || decide (username.length < 3) then
    setFieldFeedback w (js "username-feedback")
      (js "Nome de usuário deve ter pelo menos 3 caracteres") (js "error")
  else if !(encodable username) then
    setFieldFeedback w (js "username-feedback") (js "") (js "")
  else
    availabilityFeedback w (js "username-feedback") (Request.checkUsername username) r
      (js "Nome de usuário disponível") (js "Nome de usuário já está em uso")

/-- The method `validateEmail(email)` against the answer `r` of the lookup. -/
def validateEmail (w : World) (email : JSString) (r : FetchResult) : World :=
  if !(w.hasElement (js "email-feedback")) then w
  else if !(isValidEmail email) then
    setFieldFeedback w (js "email-feedback") (js "Email inválido") (js "error")
  else if !(encodable email) then
    setFieldFeedback w (js "email-feedback") (js "") (js "")
  else
    availabilityFeedback w (js "email-feedback") (Request.checkEmail email) r
      (js "Email disponível") (js "Email já está em uso")

/-- The method `validateCPF(cpf)`. -/
def validateCPF (w : World) (cpf : JSString) : World :=
  if !(w.hasElement (js "cpf-feedback")) then w
  else if isValidCPF (stripNonDigits cpf) then
    setFieldFeedback w (js "cpf-feedback") (js "CPF válido") (js "success")
  else setFieldFeedback w (js "cpf-feedback") (js "CPF inválido") (js "error")

/-- The `input` listener of the CPF field on the value `value`: the field is re-formatted and
the new value is validated. The new value of the field is returned with the state. -/
def cpfInputListener (w : World) (value : JSString) : JSString × World :=
  (formatCPF value, validateCPF w (formatCPF value))

/-- The feedback `setFieldFeedback` writes for `message` and `type`. -/
def feedbackOf (message type : JSString) : FieldFeedback :=
  { textContent := message, className := js "field-feedback " ++ type }

/-- The sample page with the three feedback elements of the registration form. -/
def registerPage : World :=
  { samplePage with
    ids := samplePage.ids ++ [js "username-feedback", js "email-feedback", js "cpf-feedback"] }

/-! ### Shapes of the specification -/

/-- The names of the five criteria, in the fixed order. -/
def criteriaNames : List JSString :=
  [js "Pelo menos 8 caracteres", js "Letra minúscula", js "Letra maiúscula", js "Número",
   js "Caractere especial"]

/-- The names of the criteria the password does not satisfy, in the fixed order. -/
def missingCriteria (password : JSString) : List JSString :=
  (((strengthCriteria password).zip criteriaNames).filter (fun c => !c.1)).map (fun c => c.2)

/-- The shape of an accepted e-mail address: no white space, exactly one `@`, something
before the `@`, and after it a `.` that is neither first nor last. -/
def EmailShape (s : JSString) : Prop :=
  (∀ c ∈ s, isSpace c = false) ∧ s.count 64 = 1 ∧
  ∃ L P, s = L ++ js "@" ++ P ∧ L ≠ [] ∧ ∃ D T, P = D ++ js "." ++ T ∧ D ≠ [] ∧ T ≠ []

end AppState
/-! ## Lemmas on the CPF checksum -/

namespace AppState

theorem isDigit_iff (c : Nat) : isDigit c = true ↔ 48 ≤ c ∧ c ≤ 57 := by
  simp [isDigit]

theorem eleven_units (s : JSString) (h : s.length = 11) :
    ∃ a0 a1 a2 a3 a4 a5 a6 a7 a8 a9 a10, s = [a0, a1, a2, a3, a4, a5, a6, a7, a8, a9, a10] := by
  match s, h with
  | [a0, a1, a2, a3, a4, a5, a6, a7, a8, a9, a10], _ =>
    exact ⟨a0, a1, a2, a3, a4, a5, a6, a7, a8, a9, a10, rfl⟩

theorem parseInt_digit (c : Nat) (h : isDigit c = true) : parseInt [c] = some (c - 48) := by
  simp [parseInt, h]

theorem parseInt_nondigit (c : Nat) (h : isDigit c = false) : parseInt [c] = none := by
  simp [parseInt, h]

theorem weightedSum_succ (cpf : JSString) (n w : Nat) :
    weightedSum cpf (n + 1) w
      = (weightedSum cpf n w).bind
          (fun acc => (parseInt (charAt cpf n)).map (fun d => acc + d * (w - n))) := by
  simp [weightedSum, List.range_succ, List.foldl_append]

theorem weightedSum_eq (cpf : JSString) (w : Nat) :
    ∀ n, n ≤ cpf.length →
      weightedSum cpf n w
        = if (cpf.take n).all isDigit = true then some (specSum cpf n w) else none := by
  intro n
  induction n with
  | zero => intro _; simp [weightedSum, specSum]
  | succ n ih =>
    intro hn
    have hlt : n < cpf.length := hn
    rw [weightedSum_succ, ih (Nat.le_of_lt hlt)]
    have hget : cpf[n]? = some cpf[n] := List.getElem?_eq_getElem hlt
    have htake : cpf.take (n + 1) = cpf.take n ++ [cpf[n]] := by
      rw [List.take_succ, hget]; rfl
    have hd : digitAt cpf n = cpf[n] - 48 := by
      simp [digitAt, List.getD, hget]
    rw [htake]
    simp only [List.all_append, List.all_cons, List.all_nil, Bool.and_true, Bool.and_eq_true,
      charAt, hget]
    by_cases h1 : (cpf.take n).all isDigit = true
    · by_cases h2 : isDigit cpf[n] = true
      · simp [h1, h2, parseInt, specSum, List.range_succ, hd]
      · simp [h1, h2, parseInt]
    · simp [h1]

theorem firstSum_eq (s : JSString) : firstSum s = specSum s 9 10 := rfl
theorem secondSum_eq (s : JSString) : secondSum s = specSum s 10 11 := rfl

theorem remainderOf_some (v : Nat) : remainderOf (some v) = some (checkRule v) := by
  simp [remainderOf, checkRule]

theorem checkRule_lt (v : Nat) : checkRule v < 10 := by
  unfold checkRule
  split <;> omega

/-- Closed form of `isValidCPF` on a string of 11 code units. -/
theorem isValidCPF_length_eleven (s : JSString) (h : s.length = 11) :
    isValidCPF s = true ↔
      allDigits s = true ∧ allIdentical s = false ∧
      digitAt s 9 = checkRule (firstSum s) ∧ digitAt s 10 = checkRule (secondSum s) := by
  have e1 := weightedSum_eq s 10 9 (by omega)
  have e2 := weightedSum_eq s 11 10 (by omega)
  obtain ⟨a0, a1, a2, a3, a4, a5, a6, a7, a8, a9, a10, rfl⟩ := eleven_units s h
  have t10 : (List.take 10 [a0, a1, a2, a3, a4, a5, a6, a7, a8, a9, a10]).all isDigit
      = ((List.take 9 [a0, a1, a2, a3, a4, a5, a6, a7, a8, a9, a10]).all isDigit && isDigit a9) := by
    simp [Bool.and_assoc]
  have tall : allDigits [a0, a1, a2, a3, a4, a5, a6, a7, a8, a9, a10]
      = ((List.take 9 [a0, a1, a2, a3, a4, a5, a6, a7, a8, a9, a10]).all isDigit && isDigit a9
          && isDigit a10) := by
    simp [allDigits, Bool.and_assoc]
  have h0 : (List.take 9 [a0, a1, a2, a3, a4, a5, a6, a7, a8, a9, a10]).all isDigit = true →
      isDigit a0 = true := by
    simp only [List.take, List.all_cons, Bool.and_eq_true]
    exact fun hh => hh.1
  have hrep : repeatedDigitRegex [a0, a1, a2, a3, a4, a5, a6, a7, a8, a9, a10]
      = (isDigit a0 && allIdentical [a0, a1, a2, a3, a4, a5, a6, a7, a8, a9, a10]) := by
    simp [repeatedDigitRegex, allIdentical]
  have c9 : parseInt (charAt [a0, a1, a2, a3, a4, a5, a6, a7, a8, a9, a10] 9)
      = if isDigit a9 = true then some (digitAt [a0, a1, a2, a3, a4, a5, a6, a7, a8, a9, a10] 9)
        else none := by
    simp [charAt, parseInt, digitAt]
  have c10 : parseInt (charAt [a0, a1, a2, a3, a4, a5, a6, a7, a8, a9, a10] 10)
      = if isDigit a10 = true then some (digitAt [a0, a1, a2, a3, a4, a5, a6, a7, a8, a9, a10] 10)
        else none := by
    simp [charAt, parseInt, digitAt]
  simp only [isValidCPF, e1, e2, t10, tall, hrep, c9, c10, h, firstSum_eq, secondSum_eq]
  revert h0
  generalize (List.take 9 [a0, a1, a2, a3, a4, a5, a6, a7, a8, a9, a10]).all isDigit = p9
  generalize allIdentical [a0, a1, a2, a3, a4, a5, a6, a7, a8, a9, a10] = idt
  generalize specSum [a0, a1, a2, a3, a4, a5, a6, a7, a8, a9, a10] 9 10 = v1
  generalize specSum [a0, a1, a2, a3, a4, a5, a6, a7, a8, a9, a10] 10 11 = v2
  generalize digitAt [a0, a1, a2, a3, a4, a5, a6, a7, a8, a9, a10] 9 = d9
  generalize digitAt [a0, a1, a2, a3, a4, a5, a6, a7, a8, a9, a10] 10 = d10
  generalize isDigit a0 = b0
  generalize isDigit a9 = b9
  generalize isDigit a10 = b10
  intro h0
  cases p9 <;> cases b9 <;> cases b10 <;> cases idt <;> cases b0 <;>
    simp [numEq, remainderOf_some, remainderOf] at h0 ⊢
  all_goals
    constructor <;> intro hh <;> exact ⟨hh.1.symm, hh.2.symm⟩

theorem isValidCPF_length (s : JSString) (h : isValidCPF s = true) : s.length = 11 := by
  by_contra hne
  simp [isValidCPF, hne] at h

/-- C1: for a string of exactly 11 decimal digits that are not all identical, `isValidCPF` is
true exactly when both check digits match: digit 9 equals `r` of the sum of `digit[i]*(10-i)`
for `i` in `0..8`, and digit 10 equals `r` of the sum of `digit[i]*(11-i)` for `i` in `0..9`,
where `r(sum) = (sum*10) mod 11`, mapped to 0 when it is 10 or 11. -/
theorem isValidCPF_iff_check_digits (s : JSString) (hlen : s.length = 11)
    (hdig : allDigits s = true) (hne : allIdentical s = false) :
    isValidCPF s = true ↔
      (digitAt s 9 = checkRule (firstSum s) ∧ digitAt s 10 = checkRule (secondSum s)) := by
  rw [isValidCPF_length_eleven s hlen]
  simp [hdig, hne]

/-- C1 at the identifier "52998224725". -/
theorem isValidCPF_iff_check_digits_witness :
    isValidCPF (js "52998224725") = true ↔
      (digitAt (js "52998224725") 9 = checkRule (firstSum (js "52998224725")) ∧
        digitAt (js "52998224725") 10 = checkRule (secondSum (js "52998224725"))) :=
  isValidCPF_iff_check_digits (js "52998224725") (by decide) (by decide) (by decide)

/-- C2: `isValidCPF` returns false for every string whose length is not 11 and for every
string made of 11 copies of one decimal digit, whatever its check digits are. -/
theorem isValidCPF_rejects_length_and_repeated (s : JSString)
    (h : s.length ≠ 11 ∨ ∃ d, isDigit d = true ∧ s = List.replicate 11 d) :
    isValidCPF s = false := by
  rcases h with h | ⟨d, hd, rfl⟩
  · simp [isValidCPF, h]
  · simp [isValidCPF, repeatedDigitRegex, List.replicate, hd]

/-- C2 at the string "00000000000". -/
theorem isValidCPF_rejects_length_and_repeated_witness :
    isValidCPF (js "00000000000") = false :=
  isValidCPF_rejects_length_and_repeated (js "00000000000")
    (Or.inr ⟨48, by decide, by decide⟩)

theorem nine_units (s : JSString) (h : s.length = 9) :
    ∃ a0 a1 a2 a3 a4 a5 a6 a7 a8, s = [a0, a1, a2, a3, a4, a5, a6, a7, a8] := by
  match s, h with
  | [a0, a1, a2, a3, a4, a5, a6, a7, a8], _ => exact ⟨a0, a1, a2, a3, a4, a5, a6, a7, a8, rfl⟩

/-- C3: for every base of 9 decimal digits, appending the first check digit computed from the
9 digits and then the second check digit computed from the resulting 10 digits gives a
string that `isValidCPF` accepts, unless its 11 digits are all identical. -/
theorem isValidCPF_accepts_built (base : JSString) (hlen : base.length = 9)
    (hdig : allDigits base = true) (hne : allIdentical (buildCPF base) = false) :
    isValidCPF (buildCPF base) = true := by
  have hl : (buildCPF base).length = 11 := by simp [buildCPF, hlen]
  rw [isValidCPF_length_eleven _ hl]
  refine ⟨?_, hne, ?_, ?_⟩
  · have c1 := checkRule_lt (firstSum base)
    have c2 := checkRule_lt (secondSum (base ++ [firstCheckDigit base]))
    simp only [buildCPF, allDigits, List.all_append, List.all_cons, List.all_nil, Bool.and_true,
      Bool.and_eq_true, firstCheckDigit, secondCheckDigit, isDigit_iff]
    simp only [firstCheckDigit] at c2
    refine ⟨⟨hdig, ?_⟩, ?_⟩ <;> omega
  · obtain ⟨a0, a1, a2, a3, a4, a5, a6, a7, a8, rfl⟩ := nine_units base hlen
    simp [buildCPF, firstCheckDigit, digitAt, firstSum, List.range, List.range.loop]
  · obtain ⟨a0, a1, a2, a3, a4, a5, a6, a7, a8, rfl⟩ := nine_units base hlen
    simp [buildCPF, secondCheckDigit, digitAt, secondSum, List.range, List.range.loop]

/-- C3 at the base "111444777": the identifier built is "11144477735" and it is accepted. -/
theorem isValidCPF_accepts_built_witness :
    buildCPF (js "111444777") = js "11144477735" ∧ isValidCPF (js "11144477735") = true :=
  ⟨by decide, isValidCPF_accepts_built (js "111444777") (by decide) (by decide) (by decide)⟩

/-- C4: for every string accepted by `isValidCPF`, replacing digit 9 (the first check digit)
by any other decimal digit gives a string that is rejected, and so does replacing digit 10
(the second check digit) by any other decimal digit. -/
theorem isValidCPF_check_digit_flip (s : JSString) (d : Nat)
    (hv : isValidCPF s = true) (hd : isDigit d = true) :
    (d ≠ s.getD 9 0 → isValidCPF (s.set 9 d) = false) ∧
    (d ≠ s.getD 10 0 → isValidCPF (s.set 10 d) = false) := by
  have hlen := isValidCPF_length s hv
  have hs := (isValidCPF_length_eleven s hlen).1 hv
  obtain ⟨a0, a1, a2, a3, a4, a5, a6, a7, a8, a9, a10, rfl⟩ := eleven_units s hlen
  obtain ⟨hdig, -, h9, h10⟩ := hs
  simp only [allDigits, List.all_cons, List.all_nil, Bool.and_true, Bool.and_eq_true,
    isDigit_iff] at hdig
  rw [isDigit_iff] at hd
  constructor
  · intro hne
    cases hc : isValidCPF ([a0, a1, a2, a3, a4, a5, a6, a7, a8, a9, a10].set 9 d) with
    | false => rfl
    | true =>
      have := ((isValidCPF_length_eleven _ (by simp)).1 hc).2.2.1
      simp [digitAt, firstSum, List.range, List.range.loop] at this h9 hne
      omega
  · intro hne
    cases hc : isValidCPF ([a0, a1, a2, a3, a4, a5, a6, a7, a8, a9, a10].set 10 d) with
    | false => rfl
    | true =>
      have := ((isValidCPF_length_eleven _ (by simp)).1 hc).2.2.2
      simp [digitAt, secondSum, List.range, List.range.loop] at this h10 hne
      omega

/-- C4 at "11144477735" with each check digit replaced by the digit 6. -/
theorem isValidCPF_check_digit_flip_witness :
    (54 ≠ (js "11144477735").getD 9 0 → isValidCPF ((js "11144477735").set 9 54) = false) ∧
    (54 ≠ (js "11144477735").getD 10 0 → isValidCPF ((js "11144477735").set 10 54) = false) :=
  isValidCPF_check_digit_flip (js "11144477735") 54 (by decide) (by decide)

end AppState

/-! ## Correctness of the matcher -/

namespace AppState

namespace Regex

theorem nullable_iff (r : Regex) : nullable r = true ↔ Lang r [] := by
  induction r with
  | zero => simp [nullable, Lang]
  | eps => simp [nullable, Lang]
  | cls p => simp [nullable, Lang]
  | alt a b iha ihb => simp [nullable, Lang, iha, ihb]
  | seq a b iha ihb =>
    simp only [nullable, Lang, Bool.and_eq_true, iha, ihb]
    constructor
    · rintro ⟨h1, h2⟩
      exact ⟨[], [], rfl, h1, h2⟩
    · rintro ⟨u, v, huv, h1, h2⟩
      have hu : u = [] := (List.append_eq_nil.1 huv.symm).1
      have hv : v = [] := (List.append_eq_nil.1 huv.symm).2
      subst hu; subst hv
      exact ⟨h1, h2⟩
  | star a _ =>
    simp only [nullable, Lang, true_iff]
    exact ⟨[], rfl, by simp⟩

theorem star_cons (a : Regex) (c : Nat) (s : JSString) :
    Lang (star a) (c :: s) ↔ ∃ u v, s = u ++ v ∧ Lang a (c :: u) ∧ Lang (star a) v := by
  constructor
  · rintro ⟨parts, hs, hall⟩
    induction parts with
    | nil => simp at hs
    | cons p ps ih =>
      cases p with
      | nil =>
        exact ih (by simpa using hs) (fun u hu => hall u (List.mem_cons_of_mem _ hu))
      | cons d p =>
        simp only [List.flatten_cons, List.cons_append, List.cons.injEq] at hs
        obtain ⟨hc, hs⟩ := hs
        subst hc
        exact ⟨p, ps.flatten, hs, hall _ (List.mem_cons_self _ _),
          ps, rfl, fun u hu => hall u (List.mem_cons_of_mem _ hu)⟩
  · rintro ⟨u, v, hs, hu, parts, hv, hall⟩
    refine ⟨(c :: u) :: parts, by simp [hs, hv], ?_⟩
    intro w hw
    rcases List.mem_cons.1 hw with rfl | hw
    · exact hu
    · exact hall w hw

theorem deriv_iff (r : Regex) : ∀ (c : Nat) (s : JSString), Lang (deriv c r) s ↔ Lang r (c :: s) := by
  induction r with
  | zero => intro c s; simp [deriv, Lang]
  | eps => intro c s; simp [deriv, Lang]
  | cls p =>
    intro c s
    by_cases h : p c = true
    · simp only [deriv, Lang, h, if_true, List.cons.injEq]
      constructor
      · intro hs
        exact ⟨c, ⟨rfl, hs⟩, h⟩
      · rintro ⟨d, ⟨_, hs⟩, _⟩
        exact hs
    · simp [deriv, Lang, h]
  | alt a b iha ihb => intro c s; simp [deriv, Lang, iha, ihb]
  | seq a b iha ihb =>
    intro c s
    have key : Lang (seq a b) (c :: s) ↔
        (∃ u v, s = u ++ v ∧ Lang a (c :: u) ∧ Lang b v) ∨ (Lang a [] ∧ Lang b (c :: s)) := by
      constructor
      · rintro ⟨u, v, huv, h1, h2⟩
        cases u with
        | nil => right; simp at huv; subst huv; exact ⟨h1, h2⟩
        | cons d u =>
          simp only [List.cons_append, List.cons.injEq] at huv
          obtain ⟨hc, hs⟩ := huv
          subst hc
          exact Or.inl ⟨u, v, hs, h1, h2⟩
      · rintro (⟨u, v, hs, h1, h2⟩ | ⟨h1, h2⟩)
        · exact ⟨c :: u, v, by simp [hs], h1, h2⟩
        · exact ⟨[], c :: s, rfl, h1, h2⟩
    rw [key]
    by_cases hn : nullable a = true
    · simp only [deriv, hn, if_true, Lang, iha, ihb]
      rw [← nullable_iff a]
      simp [hn]
    · simp only [deriv, hn, Lang, iha]
      rw [← nullable_iff a]
      simp [hn]
  | star a iha =>
    intro c s
    rw [star_cons]
    simp only [deriv, Lang, iha]

/-- The matcher decides membership in the language of the pattern. -/
theorem test_iff (r : Regex) (s : JSString) : test r s = true ↔ Lang r s := by
  induction s generalizing r with
  | nil => simp [test, nullable_iff]
  | cons c s ih => simp [test, ih, deriv_iff]

theorem plus_cls_iff (p : Nat → Bool) (s : JSString) :
    Lang (plus (cls p)) s ↔ s ≠ [] ∧ ∀ c ∈ s, p c = true := by
  have hstar : ∀ v : JSString, Lang (star (cls p)) v ↔ ∀ c ∈ v, p c = true := by
    intro v
    constructor
    · rintro ⟨parts, hv, hall⟩ c hc
      subst hv
      obtain ⟨u, hu, hcu⟩ := List.mem_flatten.1 hc
      obtain ⟨d, hd, hp⟩ := hall u hu
      subst hd
      simp at hcu
      subst hcu
      exact hp
    · intro hall
      refine ⟨v.map (fun c => [c]), ?_, ?_⟩
      · clear hall
        induction v with
        | nil => rfl
        | cons c v ih => simp [← ih]
      · intro u hu
        obtain ⟨c, hc, rfl⟩ := List.mem_map.1 hu
        exact ⟨c, rfl, hall c hc⟩
  constructor
  · rintro ⟨u, v, hs, ⟨c, hu, hp⟩, hv⟩
    subst hs; subst hu
    refine ⟨by simp, ?_⟩
    intro d hd
    rcases List.mem_cons.1 hd with rfl | hd
    · exact hp
    · exact (hstar v).1 hv d hd
  · rintro ⟨hne, hall⟩
    cases s with
    | nil => exact absurd rfl hne
    | cons c s =>
      exact ⟨[c], s, rfl, ⟨c, rfl, hall c (List.mem_cons_self _ _)⟩,
        (hstar s).2 (fun d hd => hall d (List.mem_cons_of_mem _ hd))⟩

end Regex

theorem notSpaceNorAt_iff (c : Nat) : notSpaceNorAt c = true ↔ isSpace c = false ∧ c ≠ 64 := by
  simp [notSpaceNorAt]

theorem js_at : js "@" = [64] := by decide

theorem js_dot : js "." = [46] := by decide

theorem emailRegex_lang (s : JSString) : Regex.Lang emailRegex s ↔ EmailSplit s := by
  have hseq : ∀ (a b : Regex) (t : JSString),
      Regex.Lang (Regex.seq a b) t ↔ ∃ u v, t = u ++ v ∧ Regex.Lang a u ∧ Regex.Lang b v :=
    fun _ _ _ => Iff.rfl
  have hcls : ∀ (p : Nat → Bool) (t : JSString),
      Regex.Lang (Regex.cls p) t ↔ ∃ c, t = [c] ∧ p c = true := fun _ _ => Iff.rfl
  simp only [emailRegex, EmailSplit, hseq, hcls, Regex.plus_cls_iff, notSpaceNorAt_iff,
    js_at, js_dot]
  constructor
  · rintro ⟨L, v1, rfl, ⟨hL, hLall⟩, u2, v2, rfl, ⟨c, rfl, hc⟩, D, v3, rfl, ⟨hD, hDall⟩,
      u4, T, rfl, ⟨d, rfl, hd⟩, hT, hTall⟩
    have hc64 : c = 64 := by simpa using hc
    have hd46 : d = 46 := by simpa using hd
    subst hc64; subst hd46
    exact ⟨L, D, T, by simp, hL, hLall, hD, hDall, hT, hTall⟩
  · rintro ⟨L, D, T, rfl, hL, hLall, hD, hDall, hT, hTall⟩
    exact ⟨L, [64] ++ D ++ [46] ++ T, by simp, ⟨hL, hLall⟩, [64], D ++ [46] ++ T, by simp,
      ⟨64, rfl, by simp⟩, D, [46] ++ T, by simp, ⟨hD, hDall⟩, [46], T, rfl,
      ⟨46, rfl, by simp⟩, hT, hTall⟩

/-- C5 (amended): `isValidEmail(s)` is true exactly when `s` splits as
`L + "@" + D + "." + T` with `L`, `D` and `T` non-empty and each free of white space and of
`@`. -/
theorem isValidEmail_iff_split (s : JSString) : isValidEmail s = true ↔ EmailSplit s := by
  rw [isValidEmail, Regex.test_iff, emailRegex_lang]

/-- C5 counterexample: "a@b.c@d" splits as the claim allows (`T = "c@d"` contains `@`),
yet `isValidEmail` rejects it. -/
theorem isValidEmail_rejects_at_in_last_part :
    ¬ (isValidEmail (js "a@b.c@d") = true ↔ EmailSplitLoose (js "a@b.c@d")) := by
  intro h
  have hsplit : EmailSplitLoose (js "a@b.c@d") :=
    ⟨js "a", js "b", js "c@d", by decide, by decide, by decide, by decide, by decide,
      by decide, by decide⟩
  have hfalse : isValidEmail (js "a@b.c@d") = false := by decide
  rw [h.2 hsplit] at hfalse
  exact Bool.noConfusion hfalse

end AppState

/-! ## Registration form -/

namespace AppState

theorem isEmpty_or_short (s : JSString) (n : Nat) (hn : 0 < n) :
    (s.isEmpty || decide (s.length < n)) = !(decide (n ≤ s.length)) := by
  cases s with
  | nil =>
    simp
    omega
  | cons c s =>
    simp only [List.isEmpty_cons, Bool.false_or, List.length_cons]
    by_cases h : n ≤ s.length + 1
    · have h2 : ¬ (s.length + 1 < n) := by omega
      simp [h, h2]
    · have h2 : s.length + 1 < n := by omega
      simp [h, h2]

theorem isEmpty_eq_not_ne (s : JSString) : s.isEmpty = !(decide (s ≠ [])) := by
  cases s <;> simp

theorem bne_eq_not_decide (a b : JSString) : (a != b) = !(decide (a = b)) := by
  by_cases h : a = b <;> simp [h]

/-- The array `errors` holds the messages of the failing rules, in order. -/
theorem registerErrors_eq (u : UserData) :
    registerErrors u = ((registerRules u).filter (fun rule => !rule.1)).map (fun rule => rule.2) := by
  simp only [registerErrors, registerRules, isEmpty_or_short _ 2 (by decide),
    isEmpty_or_short _ 3 (by decide), isEmpty_or_short _ 6 (by decide)]
  simp only [isEmpty_eq_not_ne, bne_eq_not_decide]
  generalize decide (2 ≤ u.full_name.length) = b1
  generalize decide (3 ≤ u.username.length) = b2
  generalize isValidEmail u.email = b3
  generalize isValidCPF (stripNonDigits u.cpf) = b4
  generalize decide (u.city ≠ []) = b5
  generalize decide (u.role ≠ []) = b6
  generalize decide (6 ≤ u.password.length) = b7
  generalize decide (u.password = u.confirm_password) = b8
  generalize js "Nome completo deve ter pelo menos 2 caracteres" = m1
  generalize js "Nome de usuário deve ter pelo menos 3 caracteres" = m2
  generalize js "Email inválido" = m3
  generalize js "CPF inválido" = m4
  generalize js "Selecione uma cidade" = m5
  generalize js "Selecione o tipo de usuário" = m6
  generalize js "Senha deve ter pelo menos 6 caracteres" = m7
  generalize js "Senhas não conferem" = m8
  cases b1 <;> cases b2 <;> cases b3 <;> cases b4 <;> cases b5 <;> cases b6 <;> cases b7 <;>
    cases b8 <;> rfl

theorem registerRules_all (u : UserData) :
    RegisterRulesHold u ↔ ∀ rule ∈ registerRules u, rule.1 = true := by
  simp [RegisterRulesHold, registerRules]

theorem registerErrors_nil_iff (u : UserData) : registerErrors u = [] ↔ RegisterRulesHold u := by
  rw [registerErrors_eq, registerRules_all]
  simp [List.filter_eq_nil_iff]

end AppState

namespace AppState

theorem validateRegisterForm_fst (w : World) (u : UserData) :
    (validateRegisterForm w u).1 = true ↔ registerErrors u = [] := by
  unfold validateRegisterForm
  cases registerErrors u <;> simp

/-- C6: `validateRegisterForm(userData)` returns true exactly when the eight rules hold (name
of length at least 2, username of length at least 3, valid e-mail, valid CPF after removal of
the non-digits, city and role non-empty, password of length at least 6, confirmation equal to
the password), and when it returns true the state is untouched: no toast is emitted. -/
theorem validateRegisterForm_true_iff (w : World) (u : UserData) :
    ((validateRegisterForm w u).1 = true ↔ RegisterRulesHold u) ∧
    ((validateRegisterForm w u).1 = true →
      (validateRegisterForm w u).2 = w ∧ (validateRegisterForm w u).2.toasts = w.toasts) := by
  refine ⟨by rw [validateRegisterForm_fst, registerErrors_nil_iff], ?_⟩
  intro h
  have he := (validateRegisterForm_fst w u).1 h
  simp [validateRegisterForm, he]

/-- C6 at a form that passes every rule: it is accepted and no toast is added. -/
theorem validateRegisterForm_true_iff_witness :
    RegisterRulesHold sampleUserData ∧
    (validateRegisterForm samplePage sampleUserData).2.toasts = samplePage.toasts :=
  have hv : (validateRegisterForm samplePage sampleUserData).1 = true := by decide
  ⟨(validateRegisterForm_true_iff samplePage sampleUserData).1.1 hv,
   ((validateRegisterForm_true_iff samplePage sampleUserData).2 hv).2⟩

theorem find_filter_head (rules : List (Bool × JSString)) :
    ((rules.filter (fun rule => !rule.1)).map (fun rule => rule.2)).head?
      = (rules.find? (fun rule => !rule.1)).map (fun rule => rule.2) := by
  induction rules with
  | nil => rfl
  | cons r rs ih =>
    cases hr : r.1 <;> simp [List.filter, List.find?, hr, ih]

theorem showToast_toasts (w : World) (message : JSVal) (type : ToastType) (duration : Nat)
    (htc : w.hasElement (js "toast-container") = true) :
    (showToast w message type duration).toasts
      = w.toasts ++ [{ elem := w.nextElem, toastId := w.now, type := type, message := message,
                       shown := false }] := by
  simp [showToast, htc]

theorem showToast_requests (w : World) (message : JSVal) (type : ToastType) (duration : Nat) :
    (showToast w message type duration).requests = w.requests := by
  unfold showToast
  split <;> rfl

theorem showToast_registerBtn (w : World) (message : JSVal) (type : ToastType) (duration : Nat) :
    (showToast w message type duration).registerBtn = w.registerBtn := by
  unfold showToast
  split <;> rfl

/-- C7: when some registration rule fails, `validateRegisterForm` returns false after exactly
one call of `showToast`, of type error, with the message of the first failing rule in the
fixed order (on a page with a toast container, exactly one toast joins the queue);
`handleRegister` then returns in that state, with no request sent and the submit button
untouched. -/
theorem validateRegisterForm_first_error (w : World) (u : UserData) (r : FetchResult)
    (hfail : ¬ RegisterRulesHold u) :
    ∃ message, firstFailingMessage u = some message ∧
      validateRegisterForm w u
        = (false, showToast w (JSVal.str message) ToastType.error 5000) ∧
      (w.hasElement (js "toast-container") = true →
        (validateRegisterForm w u).2.toasts
          = w.toasts ++ [{ elem := w.nextElem, toastId := w.now, type := ToastType.error,
                           message := JSVal.str message, shown := false }]) ∧
      handleRegister w u r = Outcome.done (validateRegisterForm w u).2 ∧
      (handleRegister w u r).world.requests = w.requests ∧
      (handleRegister w u r).world.registerBtn = w.registerBtn := by
  have hne : registerErrors u ≠ [] := fun h => hfail ((registerErrors_nil_iff u).1 h)
  have hhead := find_filter_head (registerRules u)
  rw [← registerErrors_eq] at hhead
  cases he : registerErrors u with
  | nil => exact absurd he hne
  | cons first rest =>
    have hff : firstFailingMessage u = some first := by
      rw [firstFailingMessage, ← hhead, he]; rfl
    have hv : validateRegisterForm w u
        = (false, showToast w (JSVal.str first) ToastType.error 5000) := by
      simp [validateRegisterForm, he]
    refine ⟨first, hff, hv, ?_, ?_, ?_, ?_⟩
    · intro htc
      rw [hv]
      exact showToast_toasts w _ _ _ htc
    · simp [handleRegister, hv]
    · simp [handleRegister, hv, Outcome.world, showToast_requests]
    · simp [handleRegister, hv, Outcome.world, showToast_registerBtn]

/-- C7 at a form whose username is too short and whose e-mail is malformed: the one toast
carries the username message. -/
theorem validateRegisterForm_first_error_witness :
    firstFailingMessage badUserData
      = some (js "Nome de usuário deve ter pelo menos 3 caracteres") ∧
    ∃ message, firstFailingMessage badUserData = some message ∧
      (validateRegisterForm samplePage badUserData).2.toasts
        = samplePage.toasts ++ [{ elem := samplePage.nextElem, toastId := samplePage.now,
                                  type := ToastType.error, message := JSVal.str message,
                                  shown := false }] ∧
      (handleRegister samplePage badUserData FetchResult.rejected).world.requests
        = samplePage.requests := by
  obtain ⟨message, h1, -, h3, -, h5, -⟩ :=
    validateRegisterForm_first_error samplePage badUserData FetchResult.rejected
      (by unfold RegisterRulesHold; decide)
  exact ⟨by decide, message, h1, h3 (by decide), h5⟩

end AppState

/-! ## Session -/

namespace AppState

theorem sessionInv_of_sessionOf (w w1 : World) (h : sessionOf w1 = sessionOf w) :
    SessionInv w1 ↔ SessionInv w := by
  simp only [sessionOf, Prod.mk.injEq] at h
  obtain ⟨h1, h2, h3, -⟩ := h
  simp [SessionInv, h1, h2, h3]

@[simp]
theorem sessionOf_showToast (w : World) (m : JSVal) (t : ToastType) (d : Nat) :
    sessionOf (showToast w m t d) = sessionOf w := by
  unfold showToast
  split <;> rfl

@[simp]
theorem sessionOf_closeModal (w : World) (id : JSString) :
    sessionOf (closeModal w id) = sessionOf w := by
  unfold closeModal
  split <;> rfl

@[simp]
theorem sessionOf_addClass (w : World) (id cls : JSString) :
    sessionOf (w.addClass id cls) = sessionOf w := by
  unfold World.addClass
  split <;> rfl

@[simp]
theorem sessionOf_removeClass (w : World) (id cls : JSString) :
    sessionOf (w.removeClass id cls) = sessionOf w := rfl

@[simp]
theorem sessionOf_send (w : World) (request : Request) :
    sessionOf (w.send request) = sessionOf w := rfl

@[simp]
theorem sessionOf_setLoginBtn (w : World) (html : JSString) (d : Bool) :
    sessionOf (w.setLoginBtn html d) = sessionOf w := rfl

@[simp]
theorem sessionOf_setRegisterBtn (w : World) (html : JSString) (d : Bool) :
    sessionOf (w.setRegisterBtn html d) = sessionOf w := rfl

@[simp]
theorem sessionOf_updateUserInfo (w : World) :
    sessionOf (updateUserInfo w) = sessionOf w := by
  unfold updateUserInfo
  split
  · rfl
  · dsimp only
    split <;> split <;> rfl

@[simp]
theorem sessionOf_loadNotifications (w : World) :
    sessionOf (loadNotifications w) = sessionOf w := by
  unfold loadNotifications
  split <;> rfl

@[simp]
theorem sessionOf_updateUI (w : World) : sessionOf (updateUI w).world = sessionOf w := by
  unfold updateUI
  split <;> split <;> try rfl
  all_goals dsimp only
  all_goals split <;> simp [Outcome.world]

theorem sessionOf_setUser (w : World) (u : JSVal) :
    sessionOf (setUser w u).world = (u, w.token, true, w.storage) := by
  have h := sessionOf_updateUI { w with user := u, isLoggedIn := true }
  unfold setUser
  cases hu : updateUI { w with user := u, isLoggedIn := true } with
  | done w1 =>
    rw [hu] at h
    simp only [Outcome.andThen, Outcome.world, sessionOf_loadNotifications, sessionOf_showToast]
    exact h
  | threw w1 =>
    rw [hu] at h
    exact h

theorem sessionOf_logout (w : World) :
    sessionOf (logout w).world = (JSVal.null, JSVal.null, false, none) := by
  have h := sessionOf_updateUI
    { w with user := JSVal.null, token := JSVal.null, isLoggedIn := false, storage := none }
  unfold logout
  cases hu : updateUI
    { w with user := JSVal.null, token := JSVal.null, isLoggedIn := false, storage := none } with
  | done w1 =>
    rw [hu] at h
    simp only [Outcome.andThen, Outcome.world, sessionOf_loadNotifications, sessionOf_showToast]
    exact h
  | threw w1 =>
    rw [hu] at h
    exact h

end AppState

namespace AppState

theorem sessionInv_logout (w : World) : SessionInv (logout w).world := by
  have h := sessionOf_logout w
  simp only [sessionOf, Prod.mk.injEq] at h
  obtain ⟨h1, h2, h3, -⟩ := h
  simp [SessionInv, h1, h2, h3, JSVal.isNullish]

theorem sessionInv_setUser (w : World) (u : JSVal) (ht : w.token.isNullish = false)
    (hu : u.isNullish = false) : SessionInv (setUser w u).world := by
  have h := sessionOf_setUser w u
  simp only [sessionOf, Prod.mk.injEq] at h
  obtain ⟨h1, h2, h3, -⟩ := h
  simp [SessionInv, h1, h2, h3, ht, hu]

theorem sessionInv_construct (w : World) : SessionInv (construct w) := by
  unfold construct
  dsimp only
  split <;> simp [SessionInv, validateTokenSend, World.send, JSVal.isNullish]

theorem validateTokenReceive_noData (w : World) (r : FetchResult) (h : r.givesNoData = true) :
    (validateTokenReceive w r).world = (logout w).world ∨
    (validateTokenReceive w r).world = (logout (logout w).world).world := by
  cases r with
  | rejected => left; rfl
  | response ok body =>
    cases ok with
    | false =>
      simp only [validateTokenReceive, Bool.false_eq_true, if_false]
      cases hl : logout w with
      | done w1 => left; rfl
      | threw w1 => right; rfl
    | true =>
      cases body with
      | none => left; rfl
      | some data =>
        have hn : data.isNullish = true := by simpa [FetchResult.givesNoData] using h
        left
        simp [validateTokenReceive, JSVal.getProp, hn, Outcome.catchWith]

theorem sessionInv_validateTokenReceive (w : World) (r : FetchResult)
    (ht : w.token.isNullish = false) (hp : r.SuppliesNonNull (js "profile")) :
    SessionInv (validateTokenReceive w r).world := by
  cases hf : r.givesNoData with
  | true =>
    rcases validateTokenReceive_noData w r hf with h | h <;> rw [h] <;> exact sessionInv_logout _
  | false =>
    cases r with
    | rejected => simp [FetchResult.givesNoData] at hf
    | response ok body =>
      cases ok with
      | false => simp [FetchResult.givesNoData] at hf
      | true =>
        cases body with
        | none => simp [FetchResult.givesNoData] at hf
        | some data =>
          simp only [validateTokenReceive, if_true]
          cases hd : data.getProp (js "profile") with
          | none => exact sessionInv_logout _
          | some profile =>
            have hnn : profile.isNullish = false := hp profile (by simp [FetchResult.okField, hd])
            have hs := sessionInv_setUser w profile ht hnn
            dsimp only
            cases hset : setUser w profile with
            | done w1 => rw [hset] at hs; exact hs
            | threw w1 => exact sessionInv_logout _

end AppState

namespace AppState

theorem sessionOf_handleLogin (w : World) (lf pw : JSString) (r : FetchResult) :
    sessionOf (handleLogin w lf pw r).world = sessionOf w ∨
    ∃ data t, r = FetchResult.response true (some data) ∧
      data.getProp (js "access_token") = some t ∧
      sessionOf (handleLogin w lf pw r).world
        = (data.getField (js "user"), t, true, some t.toJSString) := by
  unfold handleLogin
  split
  · left; simp [Outcome.world]
  · cases hb : w.loginBtn with
    | none => left; rfl
    | some btn =>
      dsimp only
      cases r with
      | rejected => left; simp [Outcome.catchWith, Outcome.finallyDo, Outcome.world]
      | response ok body =>
        cases body with
        | none => left; simp [Outcome.catchWith, Outcome.finallyDo, Outcome.world]
        | some data =>
          cases ok with
          | false =>
            left
            cases hm : data.getProp (js "message") <;>
              simp [Outcome.catchWith, Outcome.finallyDo, Outcome.world, hm]
          | true =>
            cases hat : data.getProp (js "access_token") with
            | none => left; simp [Outcome.catchWith, Outcome.finallyDo, Outcome.world, hat]
            | some t =>
              right
              refine ⟨data, t, rfl, hat, ?_⟩
              simp only [if_true, hat]
              generalize hw3 : ({ (w.setLoginBtn loginBusyLabel true).send (Request.login lf pw) with
                  token := t, storage := some t.toJSString } : World) = w3
              have hs := sessionOf_setUser w3 (data.getField (js "user"))
              have h3 : w3.token = t ∧ w3.storage = some t.toJSString := by
                subst hw3; exact ⟨rfl, rfl⟩
              rw [h3.1, h3.2] at hs
              cases hset : setUser w3 (data.getField (js "user")) with
              | done w4 =>
                rw [hset] at hs
                simpa [Outcome.andThen, Outcome.catchWith, Outcome.finallyDo, Outcome.world]
                  using hs
              | threw w4 =>
                rw [hset] at hs
                simpa [Outcome.andThen, Outcome.catchWith, Outcome.finallyDo, Outcome.world]
                  using hs

end AppState

/-! ### Frame lemmas: what the page operations leave alone -/

namespace AppState

@[simp]
theorem ids_addClass (w : World) (id cls : JSString) : (w.addClass id cls).ids = w.ids := by
  unfold World.addClass
  split <;> rfl

@[simp]
theorem ids_removeClass (w : World) (id cls : JSString) :
    (w.removeClass id cls).ids = w.ids := rfl

@[simp]
theorem ids_send (w : World) (request : Request) : (w.send request).ids = w.ids := rfl

@[simp]
theorem ids_setLoginBtn (w : World) (html : JSString) (d : Bool) :
    (w.setLoginBtn html d).ids = w.ids := rfl

@[simp]
theorem ids_updateUserInfo (w : World) : (updateUserInfo w).ids = w.ids := by
  unfold updateUserInfo
  split
  · rfl
  · dsimp only
    split <;> split <;> rfl

@[simp]
theorem ids_loadNotifications (w : World) : (loadNotifications w).ids = w.ids := by
  unfold loadNotifications
  split <;> rfl

@[simp]
theorem ids_closeModal (w : World) (id : JSString) : (closeModal w id).ids = w.ids := by
  unfold closeModal
  split
  · exact ids_removeClass w id (js "active")
  · rfl

@[simp]
theorem ids_showToast (w : World) (m : JSVal) (t : ToastType) (d : Nat) :
    (showToast w m t d).ids = w.ids := by
  unfold showToast
  split <;> rfl

@[simp]
theorem toasts_addClass (w : World) (id cls : JSString) :
    (w.addClass id cls).toasts = w.toasts := by
  unfold World.addClass
  split <;> rfl

@[simp]
theorem toasts_removeClass (w : World) (id cls : JSString) :
    (w.removeClass id cls).toasts = w.toasts := rfl

@[simp]
theorem toasts_send (w : World) (request : Request) :
    (w.send request).toasts = w.toasts := rfl

@[simp]
theorem toasts_setLoginBtn (w : World) (html : JSString) (d : Bool) :
    (w.setLoginBtn html d).toasts = w.toasts := rfl

@[simp]
theorem toasts_updateUserInfo (w : World) : (updateUserInfo w).toasts = w.toasts := by
  unfold updateUserInfo
  split
  · rfl
  · dsimp only
    split <;> split <;> rfl

@[simp]
theorem toasts_loadNotifications (w : World) :
    (loadNotifications w).toasts = w.toasts := by
  unfold loadNotifications
  split <;> rfl

@[simp]
theorem toasts_closeModal (w : World) (id : JSString) :
    (closeModal w id).toasts = w.toasts := by
  unfold closeModal
  split
  · exact toasts_removeClass w id (js "active")
  · rfl

@[simp]
theorem toasts_updateUI (w : World) : (updateUI w).world.toasts = w.toasts := by
  unfold updateUI
  split <;> split <;> try rfl
  all_goals dsimp only
  all_goals split <;> simp [Outcome.world]

@[simp]
theorem nextElem_addClass (w : World) (id cls : JSString) :
    (w.addClass id cls).nextElem = w.nextElem := by
  unfold World.addClass
  split <;> rfl

@[simp]
theorem nextElem_updateUserInfo (w : World) : (updateUserInfo w).nextElem = w.nextElem := by
  unfold updateUserInfo
  split
  · rfl
  · dsimp only
    split <;> split <;> rfl

@[simp]
theorem nextElem_loadNotifications (w : World) :
    (loadNotifications w).nextElem = w.nextElem := by
  unfold loadNotifications
  split <;> rfl

@[simp]
theorem nextElem_closeModal (w : World) (id : JSString) :
    (closeModal w id).nextElem = w.nextElem := by
  unfold closeModal
  split <;> rfl

@[simp]
theorem now_addClass (w : World) (id cls : JSString) :
    (w.addClass id cls).now = w.now := by
  unfold World.addClass
  split <;> rfl

@[simp]
theorem now_updateUserInfo (w : World) : (updateUserInfo w).now = w.now := by
  unfold updateUserInfo
  split
  · rfl
  · dsimp only
    split <;> split <;> rfl

@[simp]
theorem now_loadNotifications (w : World) : (loadNotifications w).now = w.now := by
  unfold loadNotifications
  split <;> rfl

@[simp]
theorem now_closeModal (w : World) (id : JSString) : (closeModal w id).now = w.now := by
  unfold closeModal
  split <;> rfl

theorem isModalOpen_closeModal (w : World) (id : JSString) :
    isModalOpen (closeModal w id) id = false := by
  unfold isModalOpen closeModal
  by_cases h : w.hasElement id = true
  · rw [if_pos h]
    simp [World.hasClass, World.removeClass]
  · rw [if_neg h]
    simp [h]

@[simp]
theorem isModalOpen_showToast (w : World) (m : JSVal) (t : ToastType) (d : Nat)
    (id : JSString) : isModalOpen (showToast w m t d) id = isModalOpen w id := by
  unfold showToast
  split <;> rfl

@[simp]
theorem isModalOpen_setLoginBtn (w : World) (html : JSString) (d : Bool) (id : JSString) :
    isModalOpen (w.setLoginBtn html d) id = isModalOpen w id := rfl

/-- The toasts `logout` adds: none, or one of type info. -/
theorem logout_toasts (w : World) :
    ∃ extra, (logout w).world.toasts = w.toasts ++ extra ∧
      ∀ t ∈ extra, t.type = ToastType.info := by
  have h := toasts_updateUI
    { w with user := JSVal.null, token := JSVal.null, isLoggedIn := false, storage := none }
  unfold logout
  cases hu : updateUI
    { w with user := JSVal.null, token := JSVal.null, isLoggedIn := false, storage := none } with
  | threw w1 =>
    rw [hu] at h
    exact ⟨[], by simpa [Outcome.andThen, Outcome.world] using h, by simp⟩
  | done w1 =>
    rw [hu] at h
    simp only [Outcome.world] at h
    simp only [Outcome.andThen, Outcome.world]
    by_cases htc : w1.hasElement (js "toast-container") = true
    · refine ⟨[{ elem := w1.nextElem, toastId := w1.now, type := ToastType.info,
                  message := JSVal.str (js "Você foi desconectado"), shown := false }], ?_, ?_⟩
      · rw [showToast_toasts _ _ _ _ htc, h]
      · simp
    · refine ⟨[], ?_, by simp⟩
      simp [showToast, htc, h]

/-- With both navigation bars on the page, `updateUI` of a logged-in state returns. -/
theorem updateUI_loggedIn (w : World) (hl : w.isLoggedIn = true)
    (hnav : w.hasElement (js "navbar") = true) (hunav : w.hasElement (js "user-navbar") = true) :
    updateUI w = Outcome.done
      (updateUserInfo ((w.addClass (js "navbar") (js "hidden")).removeClass (js "user-navbar")
        (js "hidden"))) := by
  have h2 : (w.addClass (js "navbar") (js "hidden")).hasElement (js "user-navbar") = true := by
    simpa [World.hasElement] using hunav
  simp [updateUI, hl, hnav, h2]

end AppState

/-! ## Session theorems -/

namespace AppState

theorem sessionInv_handleLogin (w : World) (lf pw : JSString) (r : FetchResult)
    (hinv : SessionInv w) (ht : r.SuppliesNonNull (js "access_token"))
    (hu : r.SuppliesNonNull (js "user")) : SessionInv (handleLogin w lf pw r).world := by
  rcases sessionOf_handleLogin w lf pw r with h | ⟨data, t, hr, hat, h⟩
  · exact (sessionInv_of_sessionOf w _ h).2 hinv
  · subst hr
    have h1 : t.isNullish = false := ht t (by simp [FetchResult.okField, hat])
    have hd : data.isNullish = false := by
      cases hdn : data.isNullish with
      | false => rfl
      | true => simp [JSVal.getProp, hdn] at hat
    have h2 : (data.getField (js "user")).isNullish = false :=
      hu _ (by simp [FetchResult.okField, JSVal.getProp, hd])
    simp only [sessionOf, Prod.mk.injEq] at h
    obtain ⟨e1, e2, e3, -⟩ := h
    simp [SessionInv, e1, e2, e3, h1, h2]

/-- C8 (amended): the session invariant `isLoggedIn ↔ token and user are not null` holds after
construction and after `logout`; it holds after `setUser(u)` when `u` and the token in force are
not null; a login keeps it when the access token and the user of a 2xx answer are not null;
a token validation (successful or failed) establishes it when the token in force and the
profile of a 2xx answer are not null. -/
theorem session_invariant (w : World) (u : JSVal) (lf pw : JSString) (r : FetchResult) :
    SessionInv (construct w) ∧
    SessionInv (logout w).world ∧
    (w.token.isNullish = false → u.isNullish = false → SessionInv (setUser w u).world) ∧
    (SessionInv w → r.SuppliesNonNull (js "access_token") → r.SuppliesNonNull (js "user") →
      SessionInv (handleLogin w lf pw r).world) ∧
    (w.token.isNullish = false → r.SuppliesNonNull (js "profile") →
      SessionInv (validateTokenReceive w r).world ∧ SessionInv (validateToken w r).world) :=
  ⟨sessionInv_construct w, sessionInv_logout w, sessionInv_setUser w u,
   sessionInv_handleLogin w lf pw r,
   fun ht hp => ⟨sessionInv_validateTokenReceive w r ht hp,
     sessionInv_validateTokenReceive (validateTokenSend w) r ht hp⟩⟩

/-- C8 counterexample: after construction, a 2xx profile answer whose `profile` is `null`
leaves `isLoggedIn` true with a null user; and `setUser` called after `logout` leaves
`isLoggedIn` true with a null token. The invariant fails in both states. -/
theorem session_invariant_fails :
    (nullProfileWorld.isLoggedIn = true ∧ nullProfileWorld.user.isNullish = true ∧
      ¬ SessionInv nullProfileWorld) ∧
    (setUserAfterLogoutWorld.isLoggedIn = true ∧ setUserAfterLogoutWorld.token.isNullish = true ∧
      ¬ SessionInv setUserAfterLogoutWorld) := by
  have h1 : nullProfileWorld.isLoggedIn = true := by decide
  have h2 : nullProfileWorld.user.isNullish = true := by decide
  have h3 : setUserAfterLogoutWorld.isLoggedIn = true := by decide
  have h4 : setUserAfterLogoutWorld.token.isNullish = true := by decide
  refine ⟨⟨h1, h2, ?_⟩, ⟨h3, h4, ?_⟩⟩
  · intro h
    have h5 := (h.1 h1).2
    rw [h2] at h5
    exact Bool.noConfusion h5
  · intro h
    have h5 := (h.1 h3).1
    rw [h4] at h5
    exact Bool.noConfusion h5

theorem setUser_done (w : World) (u : JSVal) (hnav : w.hasElement (js "navbar") = true)
    (hunav : w.hasElement (js "user-navbar") = true) :
    ∃ w1, setUser w u = Outcome.done w1 ∧ w1.toasts = w.toasts := by
  have h := updateUI_loggedIn { w with user := u, isLoggedIn := true } rfl hnav hunav
  unfold setUser
  rw [h]
  exact ⟨_, rfl, by simp⟩

/-- C9 (amended): an answer that gives `validateToken` no object to read (the request rejects,
the response is not 2xx, or the body of a 2xx response cannot be parsed or parses to `null`)
ends it logged out, with `user` and `token` null and no token in storage, and the only toasts
it adds are of type info. Every other 2xx body `data`, whatever its shape, is not a failure
for the code: on a page with both navigation bars `validateToken` ends with `isLoggedIn`
true, `user = data.profile`, the token kept in memory and in storage, and no toast. -/
theorem validateToken_failure (w : World) (r : FetchResult) :
    (r.givesNoData = true →
      (validateToken w r).world.isLoggedIn = false ∧
      (validateToken w r).world.user = JSVal.null ∧
      (validateToken w r).world.token = JSVal.null ∧
      (validateToken w r).world.storage = none ∧
      ∃ extra, (validateToken w r).world.toasts = w.toasts ++ extra ∧
        ∀ t ∈ extra, t.type = ToastType.info) ∧
    (∀ data, r = FetchResult.response true (some data) → data.isNullish = false →
      w.hasElement (js "navbar") = true → w.hasElement (js "user-navbar") = true →
      (validateToken w r).world.isLoggedIn = true ∧
      (validateToken w r).world.user = data.getField (js "profile") ∧
      (validateToken w r).world.token = w.token ∧
      (validateToken w r).world.storage = w.storage ∧
      (validateToken w r).world.toasts = w.toasts) := by
  constructor
  · intro hfail
    have hsess : ∀ v : World, (logout v).world.isLoggedIn = false ∧
        (logout v).world.user = JSVal.null ∧ (logout v).world.token = JSVal.null ∧
        (logout v).world.storage = none := by
      intro v
      have h := sessionOf_logout v
      simp only [sessionOf, Prod.mk.injEq] at h
      exact ⟨h.2.2.1, h.1, h.2.1, h.2.2.2⟩
    unfold validateToken
    rcases validateTokenReceive_noData (validateTokenSend w) r hfail with h | h
    · rw [h]
      obtain ⟨a, b, c, d⟩ := hsess (validateTokenSend w)
      exact ⟨a, b, c, d, logout_toasts (validateTokenSend w)⟩
    · rw [h]
      obtain ⟨a, b, c, d⟩ := hsess (logout (validateTokenSend w)).world
      refine ⟨a, b, c, d, ?_⟩
      obtain ⟨e1, he1, hi1⟩ := logout_toasts (validateTokenSend w)
      obtain ⟨e2, he2, hi2⟩ := logout_toasts (logout (validateTokenSend w)).world
      refine ⟨e1 ++ e2, ?_, ?_⟩
      · rw [he2, he1]
        simp [validateTokenSend]
      · intro t ht
        rcases List.mem_append.1 ht with ht | ht
        · exact hi1 t ht
        · exact hi2 t ht
  · intro data hr hd hnav hunav
    subst hr
    obtain ⟨w1, hw1, ht⟩ :=
      setUser_done (validateTokenSend w) (data.getField (js "profile")) hnav hunav
    have hs := sessionOf_setUser (validateTokenSend w) (data.getField (js "profile"))
    have hv : validateToken w (FetchResult.response true (some data)) = Outcome.done w1 := by
      simp only [validateToken, validateTokenReceive, if_true, JSVal.getProp, hd,
        Bool.false_eq_true, if_false, hw1, Outcome.catchWith]
    rw [hw1] at hs
    rw [hv]
    simp only [Outcome.world, sessionOf, Prod.mk.injEq] at hs ⊢
    exact ⟨hs.2.2.1, hs.1, hs.2.1, hs.2.2.2, ht⟩

/-- C9 counterexample: with the stored token "t0", a 2xx profile answer whose body is `{}`
or `{"profile": null}` does not end `validateToken` logged out: `isLoggedIn` is true, `user`
is `undefined` (resp. `null`), and the token stays in memory and in storage. The state is the
one the constructor reaches on the sample page. -/
theorem validateToken_keeps_token_on_body_without_profile :
    validateToken persistedTokenPage (FetchResult.response true (some emptyBody))
      = validateTokenReceive (construct samplePage) (FetchResult.response true (some emptyBody)) ∧
    (validateToken persistedTokenPage
      (FetchResult.response true (some emptyBody))).world.isLoggedIn = true ∧
    (validateToken persistedTokenPage
      (FetchResult.response true (some emptyBody))).world.user = JSVal.undefined ∧
    (validateToken persistedTokenPage
      (FetchResult.response true (some emptyBody))).world.token = JSVal.str (js "t0") ∧
    (validateToken persistedTokenPage
      (FetchResult.response true (some emptyBody))).world.storage = some (js "t0") ∧
    (validateToken persistedTokenPage
      (FetchResult.response true (some nullProfileBody))).world.isLoggedIn = true ∧
    (validateToken persistedTokenPage
      (FetchResult.response true (some nullProfileBody))).world.user = JSVal.null ∧
    (validateToken persistedTokenPage
      (FetchResult.response true (some nullProfileBody))).world.storage = some (js "t0") :=
  ⟨rfl, by decide, rfl, rfl, by decide, by decide, rfl, by decide⟩

/-- C10: on a page with both navigation bars, the toast container and a login submit button,
a 2xx login answer carrying `access_token` `t` and `user` `u` makes `handleLogin` return with
`token = t`, the stored token equal to `t`, `user = u`, `isLoggedIn` true, the login modal
closed, and exactly one more toast, of type success. -/
theorem handleLogin_success (w : World) (lf pw : JSString) (data u : JSVal) (t : JSString)
    (btn : Button) (hlf : lf ≠ []) (hpw : pw ≠ []) (hbtn : w.loginBtn = some btn)
    (hnav : w.hasElement (js "navbar") = true)
    (hunav : w.hasElement (js "user-navbar") = true)
    (htc : w.hasElement (js "toast-container") = true)
    (ht : data.getProp (js "access_token") = some (JSVal.str t))
    (hu : data.getProp (js "user") = some u) :
    ∃ w1, handleLogin w lf pw (FetchResult.response true (some data)) = Outcome.done w1 ∧
      w1.token = JSVal.str t ∧ w1.storage = some t ∧ w1.user = u ∧ w1.isLoggedIn = true ∧
      isModalOpen w1 (js "login-modal") = false ∧
      w1.toasts = w.toasts ++
        [{ elem := w.nextElem, toastId := w.now, type := ToastType.success,
           message := JSVal.str (js "Login realizado com sucesso!"), shown := false }] := by
  have hd : data.isNullish = false := by
    cases hdn : data.isNullish with
    | false => rfl
    | true => simp [JSVal.getProp, hdn] at ht
  have hu2 : data.getField (js "user") = u := by
    simpa [JSVal.getProp, hd] using hu
  have hempty : (lf.isEmpty || pw.isEmpty) = false := by
    cases lf with
    | nil => exact absurd rfl hlf
    | cons a l =>
      cases pw with
      | nil => exact absurd rfl hpw
      | cons b p => rfl
  generalize hw3 : ({ (w.setLoginBtn loginBusyLabel true).send (Request.login lf pw) with
      token := JSVal.str t, storage := some (JSVal.str t).toJSString } : World) = w3
  have hids : w3.ids = w.ids := by subst hw3; rfl
  have hset : setUser w3 u = Outcome.done (loadNotifications (updateUserInfo
      (({ w3 with user := u, isLoggedIn := true }.addClass (js "navbar") (js "hidden")).removeClass
        (js "user-navbar") (js "hidden")))) := by
    unfold setUser
    rw [updateUI_loggedIn _ rfl (by simpa [World.hasElement, hids] using hnav)
      (by simpa [World.hasElement, hids] using hunav)]
    rfl
  have hrun : handleLogin w lf pw (FetchResult.response true (some data))
      = Outcome.done ((showToast (closeModal (loadNotifications (updateUserInfo
          (({ w3 with user := u, isLoggedIn := true }.addClass (js "navbar")
            (js "hidden")).removeClass (js "user-navbar") (js "hidden")))) (js "login-modal"))
          (JSVal.str (js "Login realizado com sucesso!")) ToastType.success 5000).setLoginBtn
          btn.innerHTML false) := by
    unfold handleLogin
    simp only [hempty, hbtn, ht, hu2, if_true, Bool.false_eq_true, if_false]
    rw [hw3, hset]
    rfl
  have hso : sessionOf ((showToast (closeModal (loadNotifications (updateUserInfo
      (({ w3 with user := u, isLoggedIn := true }.addClass (js "navbar")
        (js "hidden")).removeClass (js "user-navbar") (js "hidden")))) (js "login-modal"))
      (JSVal.str (js "Login realizado com sucesso!")) ToastType.success 5000).setLoginBtn
      btn.innerHTML false) = (u, JSVal.str t, true, some t) := by
    simp only [sessionOf_setLoginBtn, sessionOf_showToast, sessionOf_closeModal,
      sessionOf_loadNotifications, sessionOf_updateUserInfo, sessionOf_removeClass,
      sessionOf_addClass]
    subst hw3
    rfl
  simp only [sessionOf, Prod.mk.injEq] at hso
  obtain ⟨e1, e2, e3, e4⟩ := hso
  refine ⟨_, hrun, e2, e4, e1, e3, ?_, ?_⟩
  · simp [isModalOpen_closeModal]
  · have htc2 : (closeModal (loadNotifications (updateUserInfo
        (({ w3 with user := u, isLoggedIn := true }.addClass (js "navbar")
          (js "hidden")).removeClass (js "user-navbar") (js "hidden"))))
        (js "login-modal")).hasElement (js "toast-container") = true := by
      simpa [World.hasElement, hids] using htc
    have hw3t : w3.toasts = w.toasts ∧ w3.nextElem = w.nextElem ∧ w3.now = w.now := by
      subst hw3; exact ⟨rfl, rfl, rfl⟩
    rw [toasts_setLoginBtn, showToast_toasts _ _ _ _ htc2]
    simp [World.removeClass, hw3t]

end AppState

namespace AppState

/-- C8 (amended) at a sample page: `setUser` with a profile, a successful login and a
successful token validation all end in a state that satisfies the invariant. -/
theorem session_invariant_witness :
    SessionInv (setUser (construct samplePage) sampleUser).world ∧
    SessionInv (handleLogin samplePage (js "ana") (js "segredo1")
      (FetchResult.response true (some sampleLoginBody))).world ∧
    SessionInv (validateTokenReceive (construct samplePage)
      (FetchResult.response true (some (JSVal.obj [(js "profile", sampleUser)])))).world :=
  ⟨(session_invariant (construct samplePage) sampleUser [] [] FetchResult.rejected).2.2.1
      (by decide) (by decide),
   (session_invariant samplePage JSVal.null (js "ana") (js "segredo1")
      (FetchResult.response true (some sampleLoginBody))).2.2.2.1
      (by unfold SessionInv; decide)
      (by intro v hv; cases hv; decide)
      (by intro v hv; cases hv; decide),
   ((session_invariant (construct samplePage) JSVal.null [] []
      (FetchResult.response true (some (JSVal.obj [(js "profile", sampleUser)])))).2.2.2.2
      (by decide) (by intro v hv; cases hv; decide)).1⟩

/-- C9 (amended) at the sample page with the stored token: a non-2xx answer ends logged out
with the token removed, and a 2xx answer carrying a profile ends logged in with the token
kept. -/
theorem validateToken_failure_witness :
    ((validateToken persistedTokenPage (FetchResult.response false none)).world.isLoggedIn
        = false ∧
      (validateToken persistedTokenPage (FetchResult.response false none)).world.storage
        = none) ∧
    ((validateToken persistedTokenPage
        (FetchResult.response true (some (JSVal.obj [(js "profile", sampleUser)])))
      ).world.isLoggedIn = true ∧
      (validateToken persistedTokenPage
        (FetchResult.response true (some (JSVal.obj [(js "profile", sampleUser)])))
      ).world.storage = persistedTokenPage.storage) :=
  have h1 := (validateToken_failure persistedTokenPage (FetchResult.response false none)).1
    (by decide)
  have h2 := (validateToken_failure persistedTokenPage
    (FetchResult.response true (some (JSVal.obj [(js "profile", sampleUser)])))).2
    (JSVal.obj [(js "profile", sampleUser)]) rfl (by decide) (by decide) (by decide)
  ⟨⟨h1.1, h1.2.2.2.1⟩, ⟨h2.1, h2.2.2.2.1⟩⟩

/-- C10 at a sample page and a 2xx answer carrying the token "t1" and a profile. -/
theorem handleLogin_success_witness :
    ∃ w1, handleLogin samplePage (js "ana") (js "segredo1")
        (FetchResult.response true (some sampleLoginBody)) = Outcome.done w1 ∧
      w1.token = JSVal.str (js "t1") ∧ w1.storage = some (js "t1") ∧ w1.user = sampleUser ∧
      w1.isLoggedIn = true ∧ isModalOpen w1 (js "login-modal") = false ∧
      w1.toasts = samplePage.toasts ++
        [{ elem := samplePage.nextElem, toastId := samplePage.now, type := ToastType.success,
           message := JSVal.str (js "Login realizado com sucesso!"), shown := false }] :=
  handleLogin_success samplePage (js "ana") (js "segredo1") sampleLoginBody sampleUser (js "t1")
    { innerHTML := js "Entrar", disabled := false } (by decide) (by decide) rfl (by decide)
    (by decide) (by decide) rfl rfl

end AppState

/-! ## Login failure, logout and the submit buttons -/

namespace AppState

theorem or_not_empty (a b : Bool) (h : (a || b) = false) : a = false ∧ b = false := by
  cases a <;> cases b <;> simp_all

theorem isEmpty_false_of_ne (s : JSString) (h : s ≠ []) : s.isEmpty = false := by
  cases s with
  | nil => exact absurd rfl h
  | cons c s => rfl

/-- The run of `handleLogin` on a non-2xx answer. -/
theorem handleLogin_not_ok (w : World) (lf pw : JSString) (body : Option JSVal) (btn : Button)
    (hlf : lf ≠ []) (hpw : pw ≠ []) (hbtn : w.loginBtn = some btn) :
    handleLogin w lf pw (FetchResult.response false body)
      = Outcome.done ((showToast ((w.setLoginBtn loginBusyLabel true).send (Request.login lf pw))
          (loginErrorText body) ToastType.error 5000).setLoginBtn btn.innerHTML false) := by
  have hempty : (lf.isEmpty || pw.isEmpty) = false := by
    simp [isEmpty_false_of_ne lf hlf, isEmpty_false_of_ne pw hpw]
  unfold handleLogin
  simp only [hempty, hbtn, Bool.false_eq_true, if_false]
  cases body with
  | none => rfl
  | some data =>
    cases hm : data.getProp (js "message") with
    | none => simp [hm, loginErrorText, connectionError, Outcome.catchWith, Outcome.finallyDo]
    | some message =>
      simp [hm, loginErrorText, loginFallback, Outcome.catchWith, Outcome.finallyDo]

/-- C11 (amended): a non-2xx login answer makes `handleLogin` return with `token`, `user`,
`isLoggedIn` and the stored token as they were and exactly one more toast, of type error; its
text is the `message` field of the body when the body parses with a truthy one, the fallback
"Erro ao fazer login" when the body parses to a non-null value without one, and the message
"Erro de conexão. Tente novamente." when the body cannot be parsed or is null. -/
theorem handleLogin_failure (w : World) (lf pw : JSString) (body : Option JSVal) (btn : Button)
    (hlf : lf ≠ []) (hpw : pw ≠ []) (hbtn : w.loginBtn = some btn)
    (htc : w.hasElement (js "toast-container") = true) :
    ∃ w1, handleLogin w lf pw (FetchResult.response false body) = Outcome.done w1 ∧
      w1.token = w.token ∧ w1.user = w.user ∧ w1.isLoggedIn = w.isLoggedIn ∧
      w1.storage = w.storage ∧
      w1.toasts = w.toasts ++ [{ elem := w.nextElem, toastId := w.now, type := ToastType.error,
                                 message := loginErrorText body, shown := false }] ∧
      (∀ data message, body = some data → data.getProp (js "message") = some message →
        (message.truthy = true → loginErrorText body = message) ∧
        (message.truthy = false → loginErrorText body = loginFallback)) ∧
      ((body = none ∨ ∃ data, body = some data ∧ data.isNullish = true) →
        loginErrorText body = connectionError) := by
  have hso : sessionOf ((showToast ((w.setLoginBtn loginBusyLabel true).send
      (Request.login lf pw)) (loginErrorText body) ToastType.error 5000).setLoginBtn
      btn.innerHTML false) = sessionOf w := by
    simp only [sessionOf_setLoginBtn, sessionOf_showToast, sessionOf_send]
  simp only [sessionOf, Prod.mk.injEq] at hso
  obtain ⟨e1, e2, e3, e4⟩ := hso
  refine ⟨_, handleLogin_not_ok w lf pw body btn hlf hpw hbtn, e2, e1, e3, e4, ?_, ?_, ?_⟩
  · have htc2 : ((w.setLoginBtn loginBusyLabel true).send (Request.login lf pw)).hasElement
        (js "toast-container") = true := htc
    rw [toasts_setLoginBtn, showToast_toasts _ _ _ _ htc2]
    rfl
  · intro data message hb hm
    subst hb
    constructor
    · intro ht
      simp [loginErrorText, hm, JSVal.or, ht]
    · intro ht
      simp [loginErrorText, hm, JSVal.or, ht]
  · rintro (hb | ⟨data, hb, hn⟩)
    · subst hb; rfl
    · subst hb
      simp [loginErrorText, JSVal.getProp, hn]

end AppState

namespace AppState

/-- C11 (amended) at a sample page: a 401 with a message shows that message. -/
theorem handleLogin_failure_witness :
    ∃ w1, handleLogin samplePage (js "ana") (js "errada")
        (FetchResult.response false (some sampleErrorBody)) = Outcome.done w1 ∧
      w1.token = samplePage.token ∧ w1.storage = samplePage.storage ∧
      w1.toasts = samplePage.toasts ++
        [{ elem := samplePage.nextElem, toastId := samplePage.now, type := ToastType.error,
           message := JSVal.str (js "Credenciais inválidas"), shown := false }] := by
  obtain ⟨w1, h1, h2, -, -, h5, h6, -, -⟩ :=
    handleLogin_failure samplePage (js "ana") (js "errada") (some sampleErrorBody)
      { innerHTML := js "Entrar", disabled := false } (by decide) (by decide) rfl (by decide)
  exact ⟨w1, h1, h2, h5, h6⟩

/-- C11 counterexample: a non-2xx answer whose body cannot be parsed gets the toast of the
`catch` block, "Erro de conexão. Tente novamente.", which is neither a `message` field nor
the fallback "Erro ao fazer login". -/
theorem handleLogin_failure_unparsed_body :
    (handleLogin samplePage (js "ana") (js "errada")
        (FetchResult.response false none)).world.toasts.map (fun t => t.message)
      = [connectionError] ∧
    connectionError ≠ claimedLoginErrorText none := by
  refine ⟨rfl, ?_⟩
  intro h
  simp only [connectionError, claimedLoginErrorText, loginFallback, JSVal.str.injEq] at h
  revert h
  decide

@[simp]
theorem requests_addClass (w : World) (id cls : JSString) :
    (w.addClass id cls).requests = w.requests := by
  unfold World.addClass
  split <;> rfl

@[simp]
theorem requests_updateUserInfo (w : World) : (updateUserInfo w).requests = w.requests := by
  unfold updateUserInfo
  split
  · rfl
  · dsimp only
    split <;> split <;> rfl

theorem requests_updateUI (w : World) : (updateUI w).world.requests = w.requests := by
  unfold updateUI
  split <;> split <;> try rfl
  all_goals dsimp only
  all_goals split <;> simp [Outcome.world, World.removeClass]

theorem requests_logout (w : World) : (logout w).world.requests = w.requests := by
  have h := requests_updateUI
    { w with user := JSVal.null, token := JSVal.null, isLoggedIn := false, storage := none }
  unfold logout
  cases hu : updateUI
    { w with user := JSVal.null, token := JSVal.null, isLoggedIn := false, storage := none } with
  | threw w1 =>
    rw [hu] at h
    exact h
  | done w1 =>
    rw [hu] at h
    simp only [Outcome.andThen, Outcome.world, showToast_requests]
    exact h

theorem updateUI_loggedOut (w : World) (hl : w.isLoggedIn = false)
    (hnav : w.hasElement (js "navbar") = true) (hunav : w.hasElement (js "user-navbar") = true) :
    updateUI w = Outcome.done
      ((w.removeClass (js "navbar") (js "hidden")).addClass (js "user-navbar") (js "hidden")) := by
  have h2 : (w.removeClass (js "navbar") (js "hidden")).hasElement (js "user-navbar") = true :=
    hunav
  simp [updateUI, hl, hnav, h2]

theorem logout_toast_of_page (v : World) (message : JSVal) (hl : v.isLoggedIn = false)
    (hnav : v.hasElement (js "navbar") = true) (hunav : v.hasElement (js "user-navbar") = true)
    (htc : v.hasElement (js "toast-container") = true) :
    ∃ w1, (updateUI v).andThen
        (fun w2 => Outcome.done (showToast w2 message ToastType.info 5000)) = Outcome.done w1 ∧
      w1.toasts = v.toasts ++
        [{ elem := v.nextElem, toastId := v.now, type := ToastType.info, message := message,
           shown := false }] := by
  rw [updateUI_loggedOut v hl hnav hunav]
  refine ⟨_, rfl, ?_⟩
  have htc2 : ((v.removeClass (js "navbar") (js "hidden")).addClass (js "user-navbar")
      (js "hidden")).hasElement (js "toast-container") = true := by
    simpa [World.hasElement, World.removeClass] using htc
  rw [showToast_toasts _ _ _ _ htc2]
  simp [World.removeClass]

/-- C12: from every state `logout()` ends with `token` null, `user` null, `isLoggedIn` false
and no stored token, and sends no request; on a page with both navigation bars and the toast
container it returns with exactly one more toast, of type info. -/
theorem logout_clears_session (w : World) :
    (logout w).world.token = JSVal.null ∧ (logout w).world.user = JSVal.null ∧
    (logout w).world.isLoggedIn = false ∧ (logout w).world.storage = none ∧
    (logout w).world.requests = w.requests ∧
    (w.hasElement (js "navbar") = true → w.hasElement (js "user-navbar") = true →
      w.hasElement (js "toast-container") = true →
      ∃ w1, logout w = Outcome.done w1 ∧
        w1.toasts = w.toasts ++
          [{ elem := w.nextElem, toastId := w.now, type := ToastType.info,
             message := JSVal.str (js "Você foi desconectado"), shown := false }]) := by
  have h := sessionOf_logout w
  simp only [sessionOf, Prod.mk.injEq] at h
  refine ⟨h.2.1, h.1, h.2.2.1, h.2.2.2, requests_logout w, ?_⟩
  intro hnav hunav htc
  exact logout_toast_of_page _ _ rfl hnav hunav htc

/-- C12 at a sample page. -/
theorem logout_clears_session_witness :
    ∃ w1, logout samplePage = Outcome.done w1 ∧
      w1.toasts = samplePage.toasts ++
        [{ elem := samplePage.nextElem, toastId := samplePage.now, type := ToastType.info,
           message := JSVal.str (js "Você foi desconectado"), shown := false }] :=
  (logout_clears_session samplePage).2.2.2.2.2 (by decide) (by decide) (by decide)

theorem finallyDo_loginBtn (o : Outcome) (html : JSString) (d : Bool) :
    (o.finallyDo (fun w6 => w6.setLoginBtn html d)).world.loginBtn
      = some { innerHTML := html, disabled := d } := by
  cases o <;> rfl

theorem finallyDo_registerBtn (o : Outcome) (html : JSString) (d : Bool) :
    (o.finallyDo (fun w6 => w6.setRegisterBtn html d)).world.registerBtn
      = some { innerHTML := html, disabled := d } := by
  cases o <;> rfl

/-- C13: once `handleLogin` or `handleRegister` has passed its local checks and disabled its
submit button, the button ends enabled with its original label for every answer of the
collaborator: 2xx, non-2xx, a rejected request, or a body that cannot be parsed. -/
theorem submit_button_restored (w : World) (lf pw : JSString) (u : UserData) (r : FetchResult)
    (btn : Button) :
    (lf ≠ [] → pw ≠ [] → w.loginBtn = some btn →
      (handleLogin w lf pw r).world.loginBtn
        = some { innerHTML := btn.innerHTML, disabled := false }) ∧
    (RegisterRulesHold u → w.registerBtn = some btn →
      (handleRegister w u r).world.registerBtn
        = some { innerHTML := btn.innerHTML, disabled := false }) := by
  constructor
  · intro hlf hpw hbtn
    have hempty : (lf.isEmpty || pw.isEmpty) = false := by
      simp [isEmpty_false_of_ne lf hlf, isEmpty_false_of_ne pw hpw]
    unfold handleLogin
    simp only [hempty, hbtn, Bool.false_eq_true, if_false]
    exact finallyDo_loginBtn _ _ _
  · intro hrules hbtn
    have hv : validateRegisterForm w u = (true, w) := by
      simp [validateRegisterForm, (registerErrors_nil_iff u).2 hrules]
    unfold handleRegister
    simp only [hv, Bool.not_true, Bool.false_eq_true, if_false, hbtn]
    exact finallyDo_registerBtn _ _ _

/-- C13 at a sample page: a rejected login request and a registration answer that cannot be
parsed both leave the button enabled with its label. -/
theorem submit_button_restored_witness :
    (handleLogin samplePage (js "ana") (js "segredo1") FetchResult.rejected).world.loginBtn
      = some { innerHTML := js "Entrar", disabled := false } ∧
    (handleRegister samplePage sampleUserData (FetchResult.response true none)).world.registerBtn
      = some { innerHTML := js "Criar conta", disabled := false } :=
  ⟨(submit_button_restored samplePage (js "ana") (js "segredo1") sampleUserData
      FetchResult.rejected { innerHTML := js "Entrar", disabled := false }).1
      (by decide) (by decide) rfl,
   (submit_button_restored samplePage [] [] sampleUserData (FetchResult.response true none)
      { innerHTML := js "Criar conta", disabled := false }).2
      (by unfold RegisterRulesHold; decide) rfl⟩

end AppState

/-! ## Modals -/

namespace AppState

theorem hasClass_addClass_self (w : World) (id cls : JSString) :
    (w.addClass id cls).hasClass id cls = true := by
  unfold World.addClass
  split
  · next h => exact h
  · simp [World.hasClass]

theorem hasClass_addClass_other (w : World) (id cls other : JSString) (h : other ≠ id) :
    (w.addClass id cls).hasClass other cls = w.hasClass other cls := by
  unfold World.addClass
  split
  · rfl
  · simp [World.hasClass, h]

theorem hasClass_removeClass_other (w : World) (id cls other : JSString) (h : other ≠ id) :
    (w.removeClass id cls).hasClass other cls = w.hasClass other cls := by
  rw [Bool.eq_iff_iff]
  simp [World.removeClass, World.hasClass, List.mem_filter, h]

theorem addClass_of_hasClass (w : World) (id cls : JSString) (h : w.hasClass id cls = true) :
    w.addClass id cls = w := by
  unfold World.addClass
  exact if_pos h

theorem bodyOverflow_update_self (v : World) (x : JSString) (h : v.bodyOverflow = x) :
    { v with bodyOverflow := x } = v := by
  cases v
  simp only at h
  subst h
  rfl

theorem openModal_of_exists (w : World) (m : JSString) (hm : w.hasElement m = true) :
    openModal w m = { w.addClass m (js "active") with bodyOverflow := js "hidden" } := by
  simp [openModal, hm]

theorem closeModal_of_exists (w : World) (m : JSString) (hm : w.hasElement m = true) :
    closeModal w m = { w.removeClass m (js "active") with bodyOverflow := js "" } := by
  simp [closeModal, hm]

theorem isModalOpen_openModal_self (w : World) (m : JSString) (hm : w.hasElement m = true) :
    isModalOpen (openModal w m) m = true := by
  rw [openModal_of_exists w m hm]
  have h := hasClass_addClass_self w m (js "active")
  have hid : (w.addClass m (js "active")).hasElement m = true := by
    simpa [World.hasElement] using hm
  simp only [isModalOpen, Bool.and_eq_true]
  exact ⟨hid, h⟩

theorem isModalOpen_openModal_other (w : World) (m other : JSString) (h : other ≠ m) :
    isModalOpen (openModal w m) other = isModalOpen w other := by
  unfold openModal
  split
  · have hc := hasClass_addClass_other w m (js "active") other h
    have hid : (w.addClass m (js "active")).hasElement other = w.hasElement other := by
      simp [World.hasElement]
    simp only [isModalOpen]
    change ((w.addClass m (js "active")).hasElement other
      && (w.addClass m (js "active")).hasClass other (js "active")) = _
    rw [hc, hid]
  · rfl

theorem isModalOpen_closeModal_other (w : World) (m other : JSString) (h : other ≠ m) :
    isModalOpen (closeModal w m) other = isModalOpen w other := by
  unfold closeModal
  split
  · have hc := hasClass_removeClass_other w m (js "active") other h
    simp only [isModalOpen]
    change ((w.removeClass m (js "active")).hasElement other
      && (w.removeClass m (js "active")).hasClass other (js "active")) = _
    rw [hc]
    rfl
  · rfl

theorem scrollLocked_openModal (w : World) (m : JSString) (hm : w.hasElement m = true) :
    scrollLocked (openModal w m) = true := by
  rw [openModal_of_exists w m hm]
  simp [scrollLocked]

theorem scrollLocked_closeModal (w : World) (m : JSString) (hm : w.hasElement m = true) :
    scrollLocked (closeModal w m) = false := by
  rw [closeModal_of_exists w m hm]
  show (js "" == js "hidden") = false
  decide

/-- C14 (amended): on an existing modal `m`, `openModal(m)` leaves `m` open and the scroll
locked, `closeModal(m)` leaves `m` closed and the scroll free whatever other modals are open,
and both leave the other modals as they were; so the invariant (scroll locked exactly when
some modal is open) holds after a call made while no modal other than `m` is open. -/
theorem scroll_lock_follows_last_call (w : World) (m : JSString)
    (hm : w.hasElement m = true) :
    (isModalOpen (openModal w m) m = true ∧ scrollLocked (openModal w m) = true) ∧
    (isModalOpen (closeModal w m) m = false ∧ scrollLocked (closeModal w m) = false) ∧
    (∀ other, other ≠ m →
      isModalOpen (openModal w m) other = isModalOpen w other ∧
      isModalOpen (closeModal w m) other = isModalOpen w other) ∧
    ((∀ other, other ≠ m → isModalOpen w other = false) →
      LockInv (openModal w m) ∧ LockInv (closeModal w m)) := by
  refine ⟨⟨isModalOpen_openModal_self w m hm, scrollLocked_openModal w m hm⟩,
    ⟨isModalOpen_closeModal w m, scrollLocked_closeModal w m hm⟩,
    fun other h => ⟨isModalOpen_openModal_other w m other h,
      isModalOpen_closeModal_other w m other h⟩, ?_⟩
  intro hothers
  constructor
  · unfold LockInv
    rw [scrollLocked_openModal w m hm]
    exact ⟨fun _ => ⟨m, isModalOpen_openModal_self w m hm⟩, fun _ => rfl⟩
  · unfold LockInv
    rw [scrollLocked_closeModal w m hm]
    constructor
    · intro h
      exact Bool.noConfusion h
    · rintro ⟨id, hid⟩
      by_cases h : id = m
      · subst h
        rw [isModalOpen_closeModal] at hid
        exact Bool.noConfusion hid
      · rw [isModalOpen_closeModal_other w m id h, hothers id h] at hid
        exact Bool.noConfusion hid

/-- C14 (amended) on the page with two closed modals: opening `a` locks the scroll, closing it
frees the scroll, and the invariant holds after each call. -/
theorem scroll_lock_follows_last_call_witness :
    scrollLocked (openModal twoModalPage (js "a")) = true ∧
    LockInv (openModal twoModalPage (js "a")) ∧ LockInv (closeModal twoModalPage (js "a")) := by
  have h := scroll_lock_follows_last_call twoModalPage (js "a") (by decide)
  exact ⟨h.1.2, (h.2.2.2 (by intro other _; simp [isModalOpen, World.hasClass, twoModalPage])).1,
    (h.2.2.2 (by intro other _; simp [isModalOpen, World.hasClass, twoModalPage])).2⟩

/-- C14 counterexample: after `open("a")`, `open("b")`, `close("a")` the modal `b` is still
open and the scroll is free, so the invariant fails. -/
theorem scroll_lock_released_while_open :
    isModalOpen openOpenCloseWorld (js "b") = true ∧ scrollLocked openOpenCloseWorld = false ∧
    ¬ LockInv openOpenCloseWorld := by
  have h1 : isModalOpen openOpenCloseWorld (js "b") = true := by decide
  have h2 : scrollLocked openOpenCloseWorld = false := by decide
  refine ⟨h1, h2, ?_⟩
  intro h
  have h3 := h.2 ⟨js "b", h1⟩
  rw [h2] at h3
  exact Bool.noConfusion h3

/-- C15 (amended): opening a modal that is already open changes nothing, so no second entry
is kept: for every modal `m`, after `open(m)`, `open(m)`, `close(m)` the modal `m` is
closed. -/
theorem openModal_twice (w : World) (m : JSString) :
    openModal (openModal w m) m = openModal w m ∧
    isModalOpen (closeModal (openModal (openModal w m) m) m) m = false := by
  refine ⟨?_, isModalOpen_closeModal _ m⟩
  by_cases hm : w.hasElement m = true
  · have hm2 : (openModal w m).hasElement m = true := by
      rw [openModal_of_exists w m hm]
      simpa [World.hasElement] using hm
    have hopen : isModalOpen (openModal w m) m = true := isModalOpen_openModal_self w m hm
    have hcls : (openModal w m).hasClass m (js "active") = true := by
      simp only [isModalOpen, Bool.and_eq_true] at hopen
      exact hopen.2
    have hov : (openModal w m).bodyOverflow = js "hidden" := by
      rw [openModal_of_exists w m hm]
    rw [openModal_of_exists (openModal w m) m hm2, addClass_of_hasClass _ _ _ hcls]
    exact bodyOverflow_update_self _ _ hov
  · simp [openModal, hm]

/-- C15 counterexample: on the page with two modals, after `open("a")`, `open("a")`,
`close("a")` the modal `a` is closed. -/
theorem openModal_twice_then_close_closes :
    isModalOpen openTwiceCloseWorld (js "a") = false := by
  decide

end AppState

/-! ## Toasts -/

namespace AppState

theorem setShown_elem (t : Toast) (elem : Nat) (shown : Bool) :
    (t.setShown elem shown).elem = t.elem := by
  unfold Toast.setShown
  split <;> rfl

theorem setShown_toastId (t : Toast) (elem : Nat) (shown : Bool) :
    (t.setShown elem shown).toastId = t.toastId := by
  unfold Toast.setShown
  split <;> rfl

theorem setShown_setShown (t : Toast) (elem : Nat) (shown : Bool) :
    (t.setShown elem shown).setShown elem shown = t.setShown elem shown := by
  unfold Toast.setShown
  by_cases h : (t.elem == elem) = true
  · simp [h]
  · simp [h]

theorem find_map_setShown (toasts : List Toast) (id elem : Nat) (shown : Bool) :
    (toasts.map (fun t => t.setShown elem shown)).find? (fun t => t.toastId == id)
      = (toasts.find? (fun t => t.toastId == id)).map (fun t => t.setShown elem shown) := by
  induction toasts with
  | nil => rfl
  | cons t rest ih =>
    simp only [List.map_cons, List.find?_cons, setShown_toastId]
    cases (t.toastId == id) with
    | true => rfl
    | false => exact ih

/-- An id no toast of the queue carries: `closeToast` changes nothing. -/
theorem closeToast_unknown (w : World) (id : Nat) (h : ∀ t ∈ w.toasts, t.toastId ≠ id) :
    closeToast w id = w := by
  have hf : w.toasts.find? (fun t => t.toastId == id) = none := by
    rw [List.find?_eq_none]
    intro t ht
    simpa using h t ht
  simp [closeToast, hf]

/-- A second `closeToast` on the same id only sets a second copy of the removal timer. -/
theorem closeToast_twice (w : World) (id : Nat) :
    closeToast (closeToast w id) id = closeToast w id ∨
    ∃ e, ExtraTimer { due := w.now + 300, action := TimerAction.removeToast e }
      (closeToast w id) (closeToast (closeToast w id) id) := by
  cases hf : w.toasts.find? (fun t => t.toastId == id) with
  | none =>
    left
    have h1 : closeToast w id = w := by simp [closeToast, hf]
    rw [h1, h1]
  | some toast =>
    right
    refine ⟨toast.elem, w.timers, [], ?_, ?_⟩
    · simp [closeToast, hf]
    · have h1 : closeToast w id = { w with
          toasts := w.toasts.map (fun t => t.setShown toast.elem false),
          timers := w.timers ++ [{ due := w.now + 300,
                                   action := TimerAction.removeToast toast.elem }] } := by
        simp [closeToast, hf]
      have hf2 : (w.toasts.map (fun t => t.setShown toast.elem false)).find?
          (fun t => t.toastId == id) = some (toast.setShown toast.elem false) := by
        rw [find_map_setShown, hf]
        rfl
      rw [h1]
      simp only [closeToast, hf2, setShown_elem, List.map_map]
      have hmap : ((fun t : Toast => t.setShown toast.elem false) ∘
          fun t : Toast => t.setShown toast.elem false)
          = fun t : Toast => t.setShown toast.elem false := by
        funext t
        exact setShown_setShown t toast.elem false
      rw [hmap]
      simp

theorem extraTimer_toasts (r : Timer) (a b : World) (h : ExtraTimer r a b) :
    b.toasts = a.toasts := by
  obtain ⟨pre, post, -, hb⟩ := h
  rw [hb]

theorem extraTimer_fire (r : Timer) (a b : World) (x : TimerAction) (h : ExtraTimer r a b) :
    ExtraTimer r (fireTimer a x) (fireTimer b x) := by
  obtain ⟨pre, post, ha, hb⟩ := h
  subst hb
  cases x with
  | addShow e => exact ⟨pre, post, ha, rfl⟩
  | removeToast e => exact ⟨pre, post, ha, rfl⟩
  | closeToast id =>
    simp only [fireTimer, closeToast]
    cases hf : a.toasts.find? (fun t => t.toastId == id) with
    | none => exact ⟨pre, post, ha, rfl⟩
    | some toast =>
      refine ⟨pre, post ++ [{ due := a.now + 300,
                              action := TimerAction.removeToast toast.elem }], ?_, ?_⟩
      · simp [ha]
      · simp

theorem extraTimer_foldl (r : Timer) (batch : List Timer) :
    ∀ a b : World, ExtraTimer r a b →
      ExtraTimer r (batch.foldl (fun acc tm => fireTimer acc tm.action) a)
        (batch.foldl (fun acc tm => fireTimer acc tm.action) b) := by
  induction batch with
  | nil => intro a b h; exact h
  | cons tm rest ih =>
    intro a b h
    exact ih _ _ (extraTimer_fire r a b tm.action h)

theorem fire_remove_twice (w : World) (e : Nat) :
    fireTimer (fireTimer w (TimerAction.removeToast e)) (TimerAction.removeToast e)
      = fireTimer w (TimerAction.removeToast e) := by
  simp [fireTimer, List.filter_filter]

theorem leastTime_le_head (d : Nat) (rest : List Nat) :
    ∃ v, leastTime (d :: rest) = some v ∧ v ≤ d := by
  cases h : leastTime rest with
  | none => exact ⟨d, by simp [leastTime, h], le_refl d⟩
  | some m => exact ⟨min d m, by simp [leastTime, h], Nat.min_le_left d m⟩

theorem leastTime_dup (xs ys : List Nat) (d : Nat) :
    leastTime (xs ++ d :: d :: ys) = leastTime (xs ++ d :: ys) := by
  induction xs with
  | nil =>
    obtain ⟨v, hv, hle⟩ := leastTime_le_head d ys
    simp only [List.nil_append]
    rw [hv]
    show (match leastTime (d :: ys) with
      | none => some d
      | some m => some (min d m)) = some v
    rw [hv]
    simp [Nat.min_eq_right hle]
  | cons x xs ih =>
    show (match leastTime (xs ++ d :: d :: ys) with
      | none => some x
      | some m => some (min x m)) = (match leastTime (xs ++ d :: ys) with
      | none => some x
      | some m => some (min x m))
    rw [ih]

theorem nextDue_dup (pre post : List Timer) (r : Timer) (t : Nat) :
    nextDue (pre ++ r :: r :: post) t = nextDue (pre ++ r :: post) t := by
  unfold nextDue
  by_cases h : r.due ≤ t
  · simp [List.filter_append, List.filter_cons, h, leastTime_dup]
  · simp [List.filter_append, List.filter_cons, h]

end AppState

namespace AppState

theorem runInstant_extra_other (r : Timer) (a b : World) (d : Nat) (h : ExtraTimer r a b)
    (hd : (r.due == d) = false) : ExtraTimer r (runInstant a d) (runInstant b d) := by
  obtain ⟨pre, post, ha, hb⟩ := h
  subst hb
  unfold runInstant
  have hbatch : (pre ++ r :: r :: post).filter (fun tm => tm.due == d)
      = a.timers.filter (fun tm => tm.due == d) := by
    rw [ha]
    simp [List.filter_append, List.filter_cons, hd]
  simp only [hbatch]
  apply extraTimer_foldl
  refine ⟨pre.filter (fun tm => !(tm.due == d)), post.filter (fun tm => !(tm.due == d)), ?_, ?_⟩
  · simp [ha, List.filter_append, List.filter_cons, hd]
  · simp [List.filter_append, List.filter_cons, hd]

theorem foldl_fire_append (xs ys : List Timer) (w : World) :
    (xs ++ ys).foldl (fun acc tm => fireTimer acc tm.action) w
      = ys.foldl (fun acc tm => fireTimer acc tm.action)
          (xs.foldl (fun acc tm => fireTimer acc tm.action) w) :=
  List.foldl_append _ _ _ _

theorem runInstant_extra_same (r : Timer) (e : Nat) (a b : World) (d : Nat)
    (hr : r.action = TimerAction.removeToast e) (h : ExtraTimer r a b)
    (hd : (r.due == d) = true) : runInstant b d = runInstant a d := by
  obtain ⟨pre, post, ha, hb⟩ := h
  subst hb
  unfold runInstant
  have hrest : (pre ++ r :: r :: post).filter (fun tm => !(tm.due == d))
      = a.timers.filter (fun tm => !(tm.due == d)) := by
    rw [ha]
    simp [List.filter_append, List.filter_cons, hd]
  have hbatchB : (pre ++ r :: r :: post).filter (fun tm => tm.due == d)
      = pre.filter (fun tm => tm.due == d) ++ r :: r :: post.filter (fun tm => tm.due == d) := by
    simp [List.filter_append, List.filter_cons, hd]
  have hbatchA : a.timers.filter (fun tm => tm.due == d)
      = pre.filter (fun tm => tm.due == d) ++ r :: post.filter (fun tm => tm.due == d) := by
    rw [ha]
    simp [List.filter_append, List.filter_cons, hd]
  simp only [hrest, hbatchB, hbatchA, foldl_fire_append, List.foldl_cons, hr,
    fire_remove_twice]

/-- With one more copy of a removal timer the queue is the same at every later point. -/
theorem advance_extra (r : Timer) (e : Nat) (hr : r.action = TimerAction.removeToast e)
    (t : Nat) : ∀ (fuel : Nat) (a b : World), ExtraTimer r a b →
      (advance fuel b t).toasts = (advance fuel a t).toasts := by
  intro fuel
  induction fuel with
  | zero =>
    intro a b h
    exact extraTimer_toasts r a b h
  | succ fuel ih =>
    intro a b h
    have hnext : nextDue b.timers t = nextDue a.timers t := by
      obtain ⟨pre, post, ha, hb⟩ := h
      subst hb
      rw [ha]
      exact nextDue_dup pre post r t
    unfold advance
    rw [hnext]
    cases hn : nextDue a.timers t with
    | none => exact extraTimer_toasts r a b h
    | some d =>
      cases hd : (r.due == d) with
      | true =>
        simp only []
        rw [runInstant_extra_same r e a b d hr h hd]
      | false =>
        exact ih _ _ (runInstant_extra_other r a b d h hd)

end AppState

namespace AppState

theorem leastTime_mem (l : List Nat) (d : Nat) (h : leastTime l = some d) :
    d ∈ l ∧ ∀ x ∈ l, d ≤ x := by
  induction l generalizing d with
  | nil => simp [leastTime] at h
  | cons x rest ih =>
    cases hr : leastTime rest with
    | none =>
      have hx : d = x := by simpa [leastTime, hr, eq_comm] using h
      subst hx
      cases rest with
      | nil => simp
      | cons y ys =>
        obtain ⟨v, hv, -⟩ := leastTime_le_head y ys
        rw [hv] at hr
        exact Option.noConfusion hr
    | some m =>
      have hd : d = min x m := by simpa [leastTime, hr, eq_comm] using h
      obtain ⟨hm, hle⟩ := ih m hr
      subst hd
      constructor
      · by_cases hxm : x ≤ m
        · simp [Nat.min_eq_left hxm]
        · have : m ≤ x := by omega
          simp [Nat.min_eq_right this, hm]
      · intro y hy
        rcases List.mem_cons.1 hy with rfl | hy
        · exact Nat.min_le_left _ _
        · exact le_trans (Nat.min_le_right _ _) (hle y hy)

theorem nextDue_some (timers : List Timer) (t d : Nat) (h : nextDue timers t = some d) :
    d ≤ t ∧ (∃ tm ∈ timers, tm.due = d) ∧ ∀ tm ∈ timers, tm.due ≤ t → d ≤ tm.due := by
  obtain ⟨hm, hle⟩ := leastTime_mem _ d h
  simp only [List.mem_map, List.mem_filter, decide_eq_true_eq] at hm hle
  obtain ⟨tm, ⟨htm, hdue⟩, rfl⟩ := hm
  exact ⟨hdue, ⟨tm, htm, rfl⟩, fun x hx hxt => hle x.due ⟨x, ⟨hx, hxt⟩, rfl⟩⟩

theorem nextDue_none_of_bound (timers : List Timer) (t lo : Nat)
    (hlo : ∀ tm ∈ timers, tm.due ≤ t → lo ≤ tm.due) (ht : t < lo) : nextDue timers t = none := by
  cases h : nextDue timers t with
  | none => rfl
  | some d =>
    obtain ⟨hd, ⟨tm, htm, rfl⟩, -⟩ := nextDue_some timers t d h
    have := hlo tm htm hd
    omega

theorem fireTimer_now (w : World) (x : TimerAction) : (fireTimer w x).now = w.now := by
  cases x with
  | addShow e => rfl
  | removeToast e => rfl
  | closeToast id =>
    simp only [fireTimer, closeToast]
    split <;> rfl

theorem fireTimer_timers (w : World) (x : TimerAction) :
    ∀ tm ∈ (fireTimer w x).timers, tm ∈ w.timers ∨ tm.due = w.now + 300 := by
  intro tm htm
  cases x with
  | addShow e => exact Or.inl htm
  | removeToast e => exact Or.inl htm
  | closeToast id =>
    simp only [fireTimer, closeToast] at htm
    split at htm
    · exact Or.inl htm
    · simp only [List.mem_append, List.mem_singleton] at htm
      rcases htm with htm | htm
      · exact Or.inl htm
      · right; rw [htm]

theorem foldl_fire_timers (batch : List Timer) :
    ∀ w : World,
      (batch.foldl (fun acc tm => fireTimer acc tm.action) w).now = w.now ∧
      ∀ tm ∈ (batch.foldl (fun acc tm => fireTimer acc tm.action) w).timers,
        tm ∈ w.timers ∨ tm.due = w.now + 300 := by
  induction batch with
  | nil => intro w; exact ⟨rfl, fun tm h => Or.inl h⟩
  | cons x rest ih =>
    intro w
    obtain ⟨hnow, htm⟩ := ih (fireTimer w x.action)
    rw [fireTimer_now] at hnow htm
    refine ⟨hnow, ?_⟩
    intro tm h
    rcases htm tm h with h1 | h1
    · exact fireTimer_timers w x.action tm h1
    · exact Or.inr h1

theorem runInstant_timers (w : World) (d : Nat) :
    ∀ tm ∈ (runInstant w d).timers, (tm ∈ w.timers ∧ tm.due ≠ d) ∨ tm.due = d + 300 := by
  intro tm htm
  unfold runInstant at htm
  rcases (foldl_fire_timers _ _).2 tm htm with h | h
  · left
    simp only [List.mem_filter, Bool.not_eq_true', beq_eq_false_iff_ne, ne_eq] at h
    exact h
  · right
    exact h

/-- Enough fuel runs every timer due by `t`: none that is due remains. -/
theorem advance_settles (t : Nat) : ∀ (fuel : Nat) (w : World) (lo : Nat),
    (∀ tm ∈ w.timers, tm.due ≤ t → lo ≤ tm.due) → t + 1 ≤ fuel + lo →
    nextDue (advance fuel w t).timers t = none := by
  intro fuel
  induction fuel with
  | zero =>
    intro w lo hlo hf
    exact nextDue_none_of_bound w.timers t lo hlo (by omega)
  | succ fuel ih =>
    intro w lo hlo hf
    unfold advance
    cases hn : nextDue w.timers t with
    | none => exact hn
    | some d =>
      obtain ⟨hdt, ⟨tm0, htm0, hdue0⟩, hleast⟩ := nextDue_some w.timers t d hn
      have hlod : lo ≤ d := by
        have := hlo tm0 htm0 (by omega)
        omega
      apply ih (runInstant w d) (d + 1)
      · intro tm htm htt
        rcases runInstant_timers w d tm htm with ⟨hmem, hne⟩ | h300
        · have := hleast tm hmem htt
          omega
        · omega
      · omega

theorem advance_complete (w : World) (t : Nat) :
    nextDue (advance (t + 1) w t).timers t = none :=
  advance_settles t (t + 1) w 0 (fun _ _ _ => Nat.zero_le _) (by omega)

end AppState

namespace AppState

theorem nextDue_none (timers : List Timer) (t : Nat) (h : nextDue timers t = none) :
    ∀ tm ∈ timers, ¬ tm.due ≤ t := by
  intro tm htm hle
  unfold nextDue at h
  have hmem : tm.due ∈ (timers.filter (fun x => decide (x.due ≤ t))).map (fun x => x.due) := by
    simp only [List.mem_map, List.mem_filter, decide_eq_true_eq]
    exact ⟨tm, ⟨htm, hle⟩, rfl⟩
  cases hl : (timers.filter (fun x => decide (x.due ≤ t))).map (fun x => x.due) with
  | nil => rw [hl] at hmem; exact absurd hmem (List.not_mem_nil _)
  | cons d rest =>
    obtain ⟨v, hv, -⟩ := leastTime_le_head d rest
    rw [hl, hv] at h
    exact Option.noConfusion h

theorem toastElems_closeToast (w : World) (id : Nat) :
    toastElems (closeToast w id) = toastElems w := by
  unfold closeToast
  split
  · rfl
  · simp [toastElems, List.map_map, Function.comp_def, setShown_elem]

theorem toastElems_fire (w : World) (x : TimerAction) :
    ∀ e, e ∈ toastElems (fireTimer w x) → e ∈ toastElems w := by
  intro e he
  cases x with
  | addShow el =>
    simpa [fireTimer, toastElems, List.map_map, Function.comp_def, setShown_elem] using he
  | closeToast id =>
    simp only [fireTimer, toastElems_closeToast] at he
    exact he
  | removeToast el =>
    simp only [fireTimer, toastElems, List.mem_map, List.mem_filter] at he ⊢
    obtain ⟨t, ⟨ht, -⟩, rfl⟩ := he
    exact ⟨t, ht, rfl⟩

theorem timers_fire (w : World) (x : TimerAction) :
    ∀ tm, tm ∈ w.timers → tm ∈ (fireTimer w x).timers := by
  intro tm htm
  cases x with
  | addShow el => exact htm
  | removeToast el => exact htm
  | closeToast id =>
    simp only [fireTimer, closeToast]
    split
    · exact htm
    · exact List.mem_append_left _ htm

theorem foldl_fire_keeps (batch : List Timer) :
    ∀ w : World,
      (∀ e, e ∈ toastElems (batch.foldl (fun acc tm => fireTimer acc tm.action) w) →
        e ∈ toastElems w) ∧
      (∀ tm, tm ∈ w.timers →
        tm ∈ (batch.foldl (fun acc tm => fireTimer acc tm.action) w).timers) := by
  induction batch with
  | nil => intro w; exact ⟨fun _ h => h, fun _ h => h⟩
  | cons x rest ih =>
    intro w
    obtain ⟨h1, h2⟩ := ih (fireTimer w x.action)
    exact ⟨fun e he => toastElems_fire w x.action e (h1 e he),
      fun tm htm => h2 tm (timers_fire w x.action tm htm)⟩

theorem fire_remove_elems (w : World) (e : Nat) :
    e ∉ toastElems (fireTimer w (TimerAction.removeToast e)) := by
  simp [fireTimer, toastElems]

theorem foldl_fire_removes (batch : List Timer) (e : Nat) (r : Timer)
    (hr : r.action = TimerAction.removeToast e) (hmem : r ∈ batch) (w : World) :
    e ∉ toastElems (batch.foldl (fun acc tm => fireTimer acc tm.action) w) := by
  obtain ⟨xs, ys, rfl⟩ := List.append_of_mem hmem
  rw [foldl_fire_append, List.foldl_cons, hr]
  intro he
  exact fire_remove_elems _ e ((foldl_fire_keeps ys _).1 e he)

/-- The removal of the element `e` stays scheduled until it has been done. -/
theorem runInstant_removal (w : World) (d e : Nat) (r : Timer)
    (hr : r.action = TimerAction.removeToast e)
    (h : r ∈ w.timers ∨ e ∉ toastElems w) :
    r ∈ (runInstant w d).timers ∨ e ∉ toastElems (runInstant w d) := by
  unfold runInstant
  rcases h with h | h
  · by_cases hd : (r.due == d) = true
    · right
      exact foldl_fire_removes _ e r hr (by simp [List.mem_filter, h, hd]) _
    · left
      apply (foldl_fire_keeps _ _).2
      simp only [List.mem_filter, Bool.not_eq_true', Bool.not_eq_true] at hd ⊢
      exact ⟨h, by simpa using hd⟩
  · right
    intro he
    have h2 := (foldl_fire_keeps _ _).1 e he
    exact h h2

theorem advance_removal (t e : Nat) (r : Timer) (hr : r.action = TimerAction.removeToast e) :
    ∀ (fuel : Nat) (w : World), (r ∈ w.timers ∨ e ∉ toastElems w) →
      (r ∈ (advance fuel w t).timers ∨ e ∉ toastElems (advance fuel w t)) := by
  intro fuel
  induction fuel with
  | zero => intro w h; exact h
  | succ fuel ih =>
    intro w h
    unfold advance
    cases hn : nextDue w.timers t with
    | none => exact h
    | some d => exact ih _ (runInstant_removal w d e r hr h)

/-- A timer due after `t` is still pending when time has passed up to `t`. -/
theorem advance_keeps_later (t : Nat) (tm : Timer) (hlate : t < tm.due) :
    ∀ (fuel : Nat) (w : World), tm ∈ w.timers → tm ∈ (advance fuel w t).timers := by
  intro fuel
  induction fuel with
  | zero => intro w h; exact h
  | succ fuel ih =>
    intro w h
    unfold advance
    cases hn : nextDue w.timers t with
    | none => exact h
    | some d =>
      have hd := (nextDue_some w.timers t d hn).1
      apply ih
      unfold runInstant
      apply (foldl_fire_keeps _ _).2
      simp only [List.mem_filter, Bool.not_eq_true', beq_eq_false_iff_ne, ne_eq]
      exact ⟨h, by omega⟩

/-- When no toast of the queue carries the reading of the clock yet, `closeToast` called
right after `showToast` on the id of the new toast evicts it once 300 ms have passed, and the
auto-dismiss timer is still pending then. -/
theorem closeToast_after_showToast_fresh (w : World) (message : JSVal) (type : ToastType)
    (duration : Nat) (htc : w.hasElement (js "toast-container") = true)
    (hfresh : ∀ toast ∈ w.toasts, toast.toastId ≠ w.now) (hdur : 300 < duration) :
    ({ due := w.now + 300, action := TimerAction.removeToast w.nextElem } : Timer)
      ∈ (closeToast (showToast w message type duration) w.now).timers ∧
    nextDue (advance (w.now + 300 + 1) (closeToast (showToast w message type duration) w.now)
      (w.now + 300)).timers (w.now + 300) = none ∧
    w.nextElem ∉ toastElems (advance (w.now + 300 + 1)
      (closeToast (showToast w message type duration) w.now) (w.now + 300)) ∧
    ({ due := w.now + duration, action := TimerAction.closeToast w.now } : Timer)
      ∈ (advance (w.now + 300 + 1) (closeToast (showToast w message type duration) w.now)
          (w.now + 300)).timers := by
  have hshow : showToast w message type duration = { w with
      nextElem := w.nextElem + 1,
      toasts := w.toasts ++ [{ elem := w.nextElem, toastId := w.now, type := type,
                               message := message, shown := false }],
      timers := w.timers ++
        [{ due := w.now + 100, action := TimerAction.addShow w.nextElem },
         { due := w.now + duration, action := TimerAction.closeToast w.now }] } := by
    simp [showToast, htc]
  obtain ⟨toast, htoast⟩ : ∃ toast : Toast, toast = { elem := w.nextElem, toastId := w.now, type := type, message := message, shown := false } :=
    ⟨_, rfl⟩
  have hfind : (w.toasts ++ [toast]).find? (fun t => t.toastId == w.now) = some toast := by
    rw [List.find?_append]
    have hnone : w.toasts.find? (fun t => t.toastId == w.now) = none := by
      rw [List.find?_eq_none]
      intro t ht
      simpa using hfresh t ht
    simp [hnone, htoast]
  rw [← htoast] at hshow
  have helem : toast.elem = w.nextElem := by rw [htoast]
  have h1 : ({ due := w.now + 300, action := TimerAction.removeToast w.nextElem } : Timer)
      ∈ (closeToast (showToast w message type duration) w.now).timers := by
    rw [hshow]
    simp [closeToast, hfind, helem]
  have h4 : ({ due := w.now + duration, action := TimerAction.closeToast w.now } : Timer)
      ∈ (closeToast (showToast w message type duration) w.now).timers := by
    rw [hshow]
    simp [closeToast, hfind]
  have hdone := advance_complete (closeToast (showToast w message type duration) w.now)
    (w.now + 300)
  refine ⟨h1, hdone, ?_, ?_⟩
  · rcases advance_removal (w.now + 300) w.nextElem _ rfl (w.now + 300 + 1) _ (Or.inl h1)
      with h | h
    · exact absurd (le_refl _) (nextDue_none _ _ hdone _ h)
    · exact h
  · exact advance_keeps_later (w.now + 300) _ (by simp; omega) _ _ h4

end AppState

/-! ## Toast theorems -/

namespace AppState

/-- C16 (defect of the code): toast ids are readings of `Date.now()`, so two toasts shown at
the same reading carry the same id. On the sample page the two toasts of `handleImageFiles`
both get the id 1000; `closeToast(1000)` addresses the older one only, and when all timers
have run (both auto-dismiss timers closed the older toast) the newer toast is still in the
queue. -/
theorem toast_ids_collide :
    toastIds twoToastWorld = [1000, 1000] ∧ toastElems twoToastWorld = [0, 1] ∧
    toastElems (advance 10 (closeToast twoToastWorld 1000) 1300) = [1] ∧
    toastElems (advance 10 twoToastWorld 100000) = [1] ∧
    (advance 10 twoToastWorld 100000).timers.length = 0 := by
  decide

/-- C17 (same defect as C16): with two toasts shown at the reading 1000, `closeToast(1000)`
called right after the second `showToast` dismisses the older toast; the toast just created
(element 1) is still in the queue when the exit delay has passed (time 1300, no timer due
left), stays until 6299, and leaves at 6300 only, after its auto-dismiss timer fired at 6000.
With a single toast the same call evicts it at 1300 with the auto-dismiss timer pending. -/
theorem closeToast_misses_new_toast :
    toastElems (advance 10 (closeToast twoToastWorld 1000) 1300) = [1] ∧
    nextDue (advance 10 (closeToast twoToastWorld 1000) 1300).timers 1300 = none ∧
    toastElems (advance 10 (closeToast twoToastWorld 1000) 6299) = [1] ∧
    toastElems (advance 10 (closeToast twoToastWorld 1000) 6300) = [] ∧
    toastElems (advance 10 (closeToast oneToastWorld 1000) 1299) = [0] ∧
    toastElems (advance 10 (closeToast oneToastWorld 1000) 1300) = [] ∧
    (advance 10 (closeToast oneToastWorld 1000) 1300).timers.length = 1 := by
  decide

/-- C18: `closeToast` changes nothing when no toast of the queue carries the id (the id is
unknown or its toast has been removed); and it is idempotent: after two calls on the same id
the queue is the same as after one call, at once and at every later point of the run of the
timers, and with fuel `t + 1` both runs up to time `t` are complete. -/
theorem closeToast_noop_and_idempotent (w : World) (id : Nat) :
    ((∀ toast ∈ w.toasts, toast.toastId ≠ id) → closeToast w id = w) ∧
    (closeToast (closeToast w id) id).toasts = (closeToast w id).toasts ∧
    (∀ fuel t, (advance fuel (closeToast (closeToast w id) id) t).toasts
      = (advance fuel (closeToast w id) t).toasts) ∧
    (∀ t, nextDue (advance (t + 1) (closeToast (closeToast w id) id) t).timers t = none ∧
      nextDue (advance (t + 1) (closeToast w id) t).timers t = none) := by
  refine ⟨closeToast_unknown w id, ?_, ?_, fun t => ⟨advance_complete _ t, advance_complete _ t⟩⟩
  · rcases closeToast_twice w id with h | ⟨e, h⟩
    · rw [h]
    · exact extraTimer_toasts _ _ _ h
  · intro fuel t
    rcases closeToast_twice w id with h | ⟨e, h⟩
    · rw [h]
    · exact advance_extra _ e rfl t fuel _ _ h

/-- C18 at a sample page: the id 7 is carried by no toast, and closing the one toast of the
queue twice empties the queue at time 1300 as closing it once does. -/
theorem closeToast_noop_and_idempotent_witness :
    closeToast oneToastWorld 7 = oneToastWorld ∧
    toastElems (advance 10 (closeToast (closeToast oneToastWorld 1000) 1000) 1300) = [] ∧
    toastElems (advance 10 (closeToast oneToastWorld 1000) 1300) = [] :=
  ⟨(closeToast_noop_and_idempotent oneToastWorld 7).1 (by decide), by decide, by decide⟩

end AppState

/-! ## Debounce -/

namespace AppState

theorem elapse_armed_early {α : Type} (s : Debounced α) (wait t t1 : Nat) (args : α)
    (h : s.Armed wait t args) (ht : t1 < t + wait) : s.elapse t1 = s := by
  obtain ⟨-, -, id, -, hp⟩ := h
  have hnot : ¬ (t + wait ≤ t1) := by omega
  simp [Debounced.elapse, hp, hnot]

theorem invoke_armed {α : Type} (s : Debounced α) (wait t t1 : Nat) (args args1 : α)
    (h : s.Armed wait t args) : (s.invoke t1 args1).Armed wait t1 args1 := by
  obtain ⟨hw, hr, id, hto, hp⟩ := h
  refine ⟨hw, hr, s.nextId, rfl, ?_⟩
  simp [Debounced.invoke, Debounced.clearTimeout, hp, hto, hw]

theorem invoke_create_armed {α : Type} (wait t : Nat) (args : α) :
    ((Debounced.create wait : Debounced α).invoke t args).Armed wait t args := by
  refine ⟨rfl, rfl, 0, rfl, ?_⟩
  simp [Debounced.invoke, Debounced.clearTimeout, Debounced.create]

theorem elapse_armed_late {α : Type} (s : Debounced α) (wait t horizon : Nat) (args : α)
    (h : s.Armed wait t args) (ht : t + wait ≤ horizon) :
    (s.elapse horizon).runs = [(t + wait, args)] ∧ (s.elapse horizon).pending = [] := by
  obtain ⟨-, hr, id, hto, hp⟩ := h
  simp [Debounced.elapse, Debounced.later, Debounced.clearTimeout, hp, ht, hr]

theorem runCalls_armed {α : Type} (wait : Nat) :
    ∀ (calls : List (Nat × α)) (s : Debounced α) (t : Nat) (args : α),
      s.Armed wait t args → IsBurst wait ((t, args) :: calls) →
      (s.runCalls calls).Armed wait (((t, args) :: calls).getLast (by simp)).1
        (((t, args) :: calls).getLast (by simp)).2 := by
  intro calls
  induction calls with
  | nil => intro s t args h _; exact h
  | cons c rest ih =>
    intro s t args h hb
    obtain ⟨h1, h2, hrest⟩ := hb
    have he : s.elapse c.1 = s := elapse_armed_early s wait t c.1 args h h2
    have hstep : ((s.elapse c.1).invoke c.1 c.2).Armed wait c.1 c.2 := by
      rw [he]
      exact invoke_armed s wait t c.1 args c.2 h
    have := ih ((s.elapse c.1).invoke c.1 c.2) c.1 c.2 hstep hrest
    simpa [Debounced.runCalls, List.getLast_cons] using this

/-- C19: for a wrapper made by `debounce(fn, wait)` and a non-empty burst of calls, each less
than `wait` after the one before, `fn` has not run before the time of the last call plus
`wait`, and from then on it has run exactly once, at that time, with the arguments of the
last call. -/
theorem debounce_burst {α : Type} (wait : Nat) (calls : List (Nat × α)) (hne : calls ≠ [])
    (hb : IsBurst wait calls) (horizon : Nat) :
    (horizon < (calls.getLast hne).1 + wait →
      (((Debounced.create wait).runCalls calls).elapse horizon).runs = []) ∧
    ((calls.getLast hne).1 + wait ≤ horizon →
      (((Debounced.create wait).runCalls calls).elapse horizon).runs
        = [((calls.getLast hne).1 + wait, (calls.getLast hne).2)]) := by
  cases calls with
  | nil => exact absurd rfl hne
  | cons c rest =>
    have h0 : ((Debounced.create wait : Debounced α).elapse c.1) = Debounced.create wait := by
      simp [Debounced.elapse, Debounced.create]
    have harmed := runCalls_armed wait rest
      ((Debounced.create wait : Debounced α).invoke c.1 c.2) c.1 c.2
      (invoke_create_armed wait c.1 c.2) hb
    have hrun : (Debounced.create wait : Debounced α).runCalls (c :: rest)
        = ((Debounced.create wait : Debounced α).invoke c.1 c.2).runCalls rest := by
      simp [Debounced.runCalls, h0]
    rw [hrun]
    constructor
    · intro hlt
      rw [elapse_armed_early _ wait _ horizon _ harmed hlt]
      exact harmed.2.1
    · intro hle
      exact (elapse_armed_late _ wait _ horizon _ harmed hle).1

/-- C19 with `wait = 100` and calls at 0, 30 and 60: nothing has run at 159, and at 160 `fn`
has run once, at 160, with the arguments of the call at 60. -/
theorem debounce_burst_witness :
    (((Debounced.create 100).runCalls [(0, "a"), (30, "b"), (60, "c")]).elapse 159).runs = [] ∧
    (((Debounced.create 100).runCalls [(0, "a"), (30, "b"), (60, "c")]).elapse 160).runs
      = [(160, "c")] :=
  ⟨(debounce_burst 100 [(0, "a"), (30, "b"), (60, "c")] (by simp)
      (by simp [IsBurst]) 159).1 (by simp),
   (debounce_burst 100 [(0, "a"), (30, "b"), (60, "c")] (by simp)
      (by simp [IsBurst]) 160).2 (by simp)⟩

/-! ## Password strength -/

theorem any_range (p : JSString) (f : Nat → Bool) (lo hi : Nat)
    (hf : ∀ c, f c = (decide (lo ≤ c) && decide (c ≤ hi))) :
    p.any f = decide (∃ c ∈ p, lo ≤ c ∧ c ≤ hi) := by
  rw [Bool.eq_iff_iff]
  simp [List.any_eq_true, hf]

theorem any_isSpecial (p : JSString) :
    p.any isSpecial = decide (∃ c ∈ p,
      ¬ ((97 ≤ c ∧ c ≤ 122) ∨ (65 ≤ c ∧ c ≤ 90) ∨ (48 ≤ c ∧ c ≤ 57))) := by
  rw [Bool.eq_iff_iff]
  simp only [List.any_eq_true, decide_eq_true_eq]
  constructor
  · rintro ⟨c, hc, h⟩
    refine ⟨c, hc, ?_⟩
    simp only [isSpecial, isUpper, isLower, isDigit, Bool.not_eq_true', Bool.or_eq_false_iff,
      Bool.and_eq_false_iff, decide_eq_false_iff_not] at h
    omega
  · rintro ⟨c, hc, h⟩
    refine ⟨c, hc, ?_⟩
    simp only [isSpecial, isUpper, isLower, isDigit, Bool.not_eq_true', Bool.or_eq_false_iff,
      Bool.and_eq_false_iff, decide_eq_false_iff_not]
    omega

theorem passwordScore_fst (p : JSString) : (passwordScore p).1 = satisfiedCount p := by
  unfold passwordScore satisfiedCount strengthCriteria
  rw [any_range p isLower 97 122 (fun _ => rfl), any_range p isUpper 65 90 (fun _ => rfl),
    any_range p isDigit 48 57 (fun _ => rfl), any_isSpecial p]
  have h8 : decide (p.length ≥ 8) = decide (8 ≤ p.length) := rfl
  rw [h8]
  generalize decide (8 ≤ p.length) = b1
  generalize decide (∃ c ∈ p, 97 ≤ c ∧ c ≤ 122) = b2
  generalize decide (∃ c ∈ p, 65 ≤ c ∧ c ≤ 90) = b3
  generalize decide (∃ c ∈ p, 48 ≤ c ∧ c ≤ 57) = b4
  generalize decide (∃ c ∈ p, ¬ ((97 ≤ c ∧ c ≤ 122) ∨ (65 ≤ c ∧ c ≤ 90) ∨ (48 ≤ c ∧ c ≤ 57)))
    = b5
  cases b1 <;> cases b2 <;> cases b3 <;> cases b4 <;> cases b5 <;> rfl

theorem satisfiedCount_le (p : JSString) : satisfiedCount p ≤ 5 := by
  unfold satisfiedCount
  exact le_trans (List.count_le_length _ _) (by simp [strengthCriteria])

/-- C20: the level computed by `updatePasswordStrength` is, for every password, the number of
satisfied criteria among length at least 8, a lowercase letter, an uppercase letter, a digit
and a character that is neither letter nor digit; it lies between 0 and 5; it is 0 for the
empty password, 2 for "abcdefgh" and 5 for "Abcdefg1!". -/
theorem passwordStrength_level :
    (∀ p : JSString, ∃ view, updatePasswordStrength true p = some view ∧
      view.strength = satisfiedCount p ∧ view.strength ≤ 5) ∧
    (passwordScore (js "")).1 = 0 ∧ (passwordScore (js "abcdefgh")).1 = 2 ∧
    (passwordScore (js "Abcdefg1!")).1 = 5 := by
  refine ⟨?_, by decide, by decide, by decide⟩
  intro p
  refine ⟨_, rfl, passwordScore_fst p, ?_⟩
  show (passwordScore p).1 ≤ 5
  rw [passwordScore_fst]
  exact satisfiedCount_le p

end AppState

/-! ## Password feedback and monotonicity -/

namespace AppState

theorem strengthCriteria_any (p : JSString) :
    strengthCriteria p
      = [decide (p.length ≥ 8), p.any isLower, p.any isUpper, p.any isDigit, p.any isSpecial] := by
  unfold strengthCriteria
  rw [any_range p isLower 97 122 (fun _ => rfl), any_range p isUpper 65 90 (fun _ => rfl),
    any_range p isDigit 48 57 (fun _ => rfl), any_isSpecial p]

theorem passwordScore_snd (p : JSString) : (passwordScore p).2 = missingCriteria p := by
  unfold passwordScore missingCriteria criteriaNames
  rw [strengthCriteria_any]
  generalize decide (p.length ≥ 8) = b1
  generalize p.any isLower = b2
  generalize p.any isUpper = b3
  generalize p.any isDigit = b4
  generalize p.any isSpecial = b5
  cases b1 <;> cases b2 <;> cases b3 <;> cases b4 <;> cases b5 <;> rfl

theorem passwordScore_length (p : JSString) :
    (passwordScore p).2.length = 5 - (passwordScore p).1 ∧
    ((passwordScore p).2 = [] ↔ (passwordScore p).1 = 5) := by
  unfold passwordScore
  generalize decide (p.length ≥ 8) = b1
  generalize p.any isLower = b2
  generalize p.any isUpper = b3
  generalize p.any isDigit = b4
  generalize p.any isSpecial = b5
  cases b1 <;> cases b2 <;> cases b3 <;> cases b4 <;> cases b5 <;> simp [scoreStep]

/-- C21: for every password the feedback list of `updatePasswordStrength` holds exactly the
names of the criteria that are not satisfied, each once, in the order length, lowercase,
uppercase, digit, special character; its length is 5 minus the level and it is empty exactly
when the level is 5. -/
theorem passwordFeedback_missing (p : JSString) :
    ∃ view, updatePasswordStrength true p = some view ∧
      view.feedback = missingCriteria p ∧
      view.feedback.length = 5 - view.strength ∧
      (view.feedback = [] ↔ view.strength = 5) :=
  ⟨_, rfl, passwordScore_snd p, (passwordScore_length p).1, (passwordScore_length p).2⟩

theorem count_five (a1 a2 a3 a4 a5 : Bool) :
    [a1, a2, a3, a4, a5].count true
      = a1.toNat + a2.toNat + a3.toNat + a4.toNat + a5.toNat := by
  cases a1 <;> cases a2 <;> cases a3 <;> cases a4 <;> cases a5 <;> rfl

theorem toNat_le_of_imp (a b : Bool) (h : a = true → b = true) : a.toNat ≤ b.toNat := by
  cases a <;> cases b <;> simp_all

theorem any_append_left (p q : JSString) (f : Nat → Bool) (h : p.any f = true) :
    (p ++ q).any f = true := by
  simp [List.any_append, h]

theorem any_append_right (p q : JSString) (f : Nat → Bool) (h : p.any f = true) :
    (q ++ p).any f = true := by
  simp [List.any_append, h]

theorem satisfiedCount_mono (p r : JSString) (hlen : p.length ≤ r.length)
    (hany : ∀ f : Nat → Bool, p.any f = true → r.any f = true) :
    satisfiedCount p ≤ satisfiedCount r := by
  unfold satisfiedCount
  rw [strengthCriteria_any, strengthCriteria_any, count_five, count_five]
  have h1 : (decide (p.length ≥ 8)).toNat ≤ (decide (r.length ≥ 8)).toNat :=
    toNat_le_of_imp _ _ (by simp only [decide_eq_true_eq]; omega)
  have h2 := toNat_le_of_imp _ _ (hany isLower)
  have h3 := toNat_le_of_imp _ _ (hany isUpper)
  have h4 := toNat_le_of_imp _ _ (hany isDigit)
  have h5 := toNat_le_of_imp _ _ (hany isSpecial)
  omega

/-- C30: the password strength level is monotone under extension: the level of `p + q` and
the level of `q + p` are both at least the level of `p`. -/
theorem passwordStrength_monotone (p q : JSString) :
    (passwordScore p).1 ≤ (passwordScore (p ++ q)).1 ∧
    (passwordScore p).1 ≤ (passwordScore (q ++ p)).1 := by
  rw [passwordScore_fst, passwordScore_fst, passwordScore_fst]
  exact ⟨satisfiedCount_mono p (p ++ q) (by simp) (fun f h => any_append_left p q f h),
    satisfiedCount_mono p (q ++ p) (by simp) (fun f h => any_append_right p q f h)⟩

/-! ## CPF: undetected errors, non-digits, formatting -/

/-- C26: `isValidCPF` does not detect every single-digit error: "10000000604" and
"00000000604" differ in their first digit only and are both accepted. The first sums give the
remainders 0 and 10, both mapped to the check digit 0, and the second sums differ by the
weight 11 of the first digit, so they give the same second check digit. -/
theorem isValidCPF_misses_first_digit_error :
    isValidCPF (js "10000000604") = true ∧ isValidCPF (js "00000000604") = true ∧
    (js "10000000604").tail = (js "00000000604").tail ∧
    (js "10000000604").head? ≠ (js "00000000604").head? ∧
    (firstSum (js "10000000604") * 10) % 11 = 0 ∧
    (firstSum (js "00000000604") * 10) % 11 = 10 ∧
    checkRule (firstSum (js "10000000604")) = checkRule (firstSum (js "00000000604")) ∧
    secondSum (js "10000000604") = secondSum (js "00000000604") + 11 := by
  decide

/-- C27: `isValidCPF` returns false for every string that holds a code unit that is not a
decimal digit, whatever its length and wherever that unit is. -/
theorem isValidCPF_rejects_nondigit (s : JSString) (h : ∃ c ∈ s, isDigit c = false) :
    isValidCPF s = false := by
  cases hv : isValidCPF s with
  | false => rfl
  | true =>
    have hlen := isValidCPF_length s hv
    have hall := ((isValidCPF_length_eleven s hlen).1 hv).1
    obtain ⟨c, hc, hd⟩ := h
    have := (List.all_eq_true.1 hall) c hc
    rw [hd] at this
    exact Bool.noConfusion this

/-- C27 at "1114447773x" and at a string of another length. -/
theorem isValidCPF_rejects_nondigit_witness :
    isValidCPF (js "1114447773x") = false ∧ isValidCPF (js "111.444.777-35") = false :=
  ⟨isValidCPF_rejects_nondigit (js "1114447773x") ⟨120, by decide, by decide⟩,
   isValidCPF_rejects_nondigit (js "111.444.777-35") ⟨46, by decide, by decide⟩⟩

theorem stripNonDigits_all (s : JSString) : (stripNonDigits s).all isDigit = true := by
  simp [stripNonDigits, List.all_eq_true, List.mem_filter]

theorem stripNonDigits_idem (s : JSString) : stripNonDigits (stripNonDigits s) = stripNonDigits s := by
  simp [stripNonDigits, List.filter_filter]

theorem replaceCpfPattern_eleven (a0 a1 a2 a3 a4 a5 a6 a7 a8 a9 a10 : Nat)
    (h : allDigits [a0, a1, a2, a3, a4, a5, a6, a7, a8, a9, a10] = true) :
    replaceCpfPattern [a0, a1, a2, a3, a4, a5, a6, a7, a8, a9, a10]
      = [a0, a1, a2, 46, a3, a4, a5, 46, a6, a7, a8, 45, a9, a10] := by
  have hd : ([a0, a1, a2, a3, a4, a5, a6, a7, a8, a9, a10].take 11).all isDigit = true := h
  have hdot : js "." = [46] := by decide
  have hdash : js "-" = [45] := by decide
  rw [replaceCpfPattern, hd]
  simp [cpfGroups, hdot, hdash]

/-- C22: for every raw string that holds exactly 11 decimal digits `d0..d10`, with any other
characters between them, `formatCPF(raw)` is the 14-character string
`d0 d1 d2 "." d3 d4 d5 "." d6 d7 d8 "-" d9 d10`. -/
theorem formatCPF_eleven_digits (raw : JSString) (h : raw.countP isDigit = 11) :
    ∃ d0 d1 d2 d3 d4 d5 d6 d7 d8 d9 d10,
      raw.filter isDigit = [d0, d1, d2, d3, d4, d5, d6, d7, d8, d9, d10] ∧
      formatCPF raw = [d0, d1, d2, 46, d3, d4, d5, 46, d6, d7, d8, 45, d9, d10] ∧
      (formatCPF raw).length = 14 := by
  have hlen : (stripNonDigits raw).length = 11 := by
    rw [stripNonDigits, ← List.countP_eq_length_filter]
    exact h
  obtain ⟨d0, d1, d2, d3, d4, d5, d6, d7, d8, d9, d10, hs⟩ := eleven_units _ hlen
  have hall := stripNonDigits_all raw
  rw [hs] at hall
  have hf : formatCPF raw = [d0, d1, d2, 46, d3, d4, d5, 46, d6, d7, d8, 45, d9, d10] := by
    rw [formatCPF, hs]
    exact replaceCpfPattern_eleven _ _ _ _ _ _ _ _ _ _ _ hall
  exact ⟨d0, d1, d2, d3, d4, d5, d6, d7, d8, d9, d10, hs, hf, by rw [hf]; rfl⟩

/-- C22 at the raw string "111 444 777 35": the result is "111.444.777-35". -/
theorem formatCPF_eleven_digits_witness :
    formatCPF (js "111 444 777 35") = js "111.444.777-35" ∧
    ∃ d0 d1 d2 d3 d4 d5 d6 d7 d8 d9 d10,
      (js "111 444 777 35").filter isDigit = [d0, d1, d2, d3, d4, d5, d6, d7, d8, d9, d10] ∧
      formatCPF (js "111 444 777 35")
        = [d0, d1, d2, 46, d3, d4, d5, 46, d6, d7, d8, 45, d9, d10] ∧
      (formatCPF (js "111 444 777 35")).length = 14 :=
  ⟨by decide, formatCPF_eleven_digits (js "111 444 777 35") (by decide)⟩

theorem stripNonDigits_cpfGroups (d : JSString) (h : d.length = 11) :
    stripNonDigits (cpfGroups d) = stripNonDigits d := by
  obtain ⟨a0, a1, a2, a3, a4, a5, a6, a7, a8, a9, a10, rfl⟩ := eleven_units d h
  have hdot : js "." = [46] := by decide
  have hdash : js "-" = [45] := by decide
  have h46 : isDigit 46 = false := by decide
  have h45 : isDigit 45 = false := by decide
  simp [cpfGroups, hdot, hdash, stripNonDigits, List.filter_cons, h46, h45]

theorem stripNonDigits_replace (s : JSString) :
    stripNonDigits (replaceCpfPattern s) = stripNonDigits s := by
  induction s with
  | nil => rfl
  | cons c rest ih =>
    rw [replaceCpfPattern]
    split
    · next hm =>
      simp only [Bool.and_eq_true, decide_eq_true_eq] at hm
      have happ : stripNonDigits (cpfGroups ((c :: rest).take 11) ++ (c :: rest).drop 11)
          = stripNonDigits (cpfGroups ((c :: rest).take 11))
            ++ stripNonDigits ((c :: rest).drop 11) := by
        unfold stripNonDigits
        exact List.filter_append _ _
      rw [happ, stripNonDigits_cpfGroups _ hm.1]
      have hsplit : stripNonDigits ((c :: rest).take 11) ++ stripNonDigits ((c :: rest).drop 11)
          = stripNonDigits ((c :: rest).take 11 ++ (c :: rest).drop 11) := by
        unfold stripNonDigits
        exact (List.filter_append _ _).symm
      rw [hsplit, List.take_append_drop]
    · have hc : stripNonDigits (c :: replaceCpfPattern rest)
          = (if isDigit c then [c] else []) ++ stripNonDigits (replaceCpfPattern rest) := by
        simp only [stripNonDigits, List.filter_cons]
        split <;> rfl
      have hc2 : stripNonDigits (c :: rest)
          = (if isDigit c then [c] else []) ++ stripNonDigits rest := by
        simp only [stripNonDigits, List.filter_cons]
        split <;> rfl
      rw [hc, hc2, ih]

theorem stripNonDigits_formatCPF (v : JSString) :
    stripNonDigits (formatCPF v) = stripNonDigits v := by
  rw [formatCPF, stripNonDigits_replace, stripNonDigits_idem]

/-- C28: `formatCPF` loses no digit and is idempotent: removing the non-digits from
`formatCPF(v)` gives the digits of `v`, and `formatCPF(formatCPF(v)) = formatCPF(v)`; so the
string `isValidCPF` is given, and with it what `validateCPF` writes, is the same for the
re-formatted value as for the value itself. -/
theorem formatCPF_idempotent (v : JSString) :
    stripNonDigits (formatCPF v) = stripNonDigits v ∧
    formatCPF (formatCPF v) = formatCPF v ∧
    isValidCPF (stripNonDigits (formatCPF v)) = isValidCPF (stripNonDigits v) ∧
    (∀ w, validateCPF w (formatCPF v) = validateCPF w v) ∧
    (∀ w, cpfInputListener w (formatCPF v) = cpfInputListener w v) := by
  have h1 := stripNonDigits_formatCPF v
  have h2 : formatCPF (formatCPF v) = formatCPF v := by
    conv_lhs => rw [formatCPF, h1]
    rfl
  refine ⟨h1, h2, by rw [h1], ?_, ?_⟩
  · intro w
    simp only [validateCPF, h1]
  · intro w
    simp only [cpfInputListener, h2]

end AppState

/-! ## E-mail shape -/

namespace AppState

theorem count_eq_zero_of_forall (l : JSString) (a : Nat) (h : ∀ c ∈ l, c ≠ a) :
    l.count a = 0 := by
  rw [List.count_eq_zero]
  intro hmem
  exact h a hmem rfl

theorem emailSplit_iff_shape (s : JSString) : EmailSplit s ↔ EmailShape s := by
  have hs64 : isSpace 64 = false := by decide
  have hs46 : isSpace 46 = false := by decide
  simp only [EmailSplit, EmailShape, js_at, js_dot]
  constructor
  · rintro ⟨L, D, T, rfl, hL, hLall, hD, hDall, hT, hTall⟩
    refine ⟨?_, ?_, L, D ++ [46] ++ T, by simp, hL, D, T, rfl, hD, hT⟩
    · intro c hc
      simp only [List.mem_append, List.mem_singleton] at hc
      rcases hc with (((hc | hc) | hc) | hc) | hc
      · exact (hLall c hc).1
      · rw [hc]; exact hs64
      · exact (hDall c hc).1
      · rw [hc]; exact hs46
      · exact (hTall c hc).1
    · have h1 := count_eq_zero_of_forall L 64 (fun c hc => (hLall c hc).2)
      have h2 := count_eq_zero_of_forall D 64 (fun c hc => (hDall c hc).2)
      have h3 := count_eq_zero_of_forall T 64 (fun c hc => (hTall c hc).2)
      simp [List.count_append, h1, h2, h3]
  · rintro ⟨hws, hcount, L, P, rfl, hL, D, T, rfl, hD, hT⟩
    have hc : L.count 64 + (D.count 64 + (T.count 64 + 1)) = 1 := by
      simpa [List.count_append, List.count_cons, Nat.add_assoc] using hcount
    have hL0 : L.count 64 = 0 := by omega
    have hD0 : D.count 64 = 0 := by omega
    have hT0 : T.count 64 = 0 := by omega
    rw [List.count_eq_zero] at hL0 hD0 hT0
    refine ⟨L, D, T, by simp, hL, ?_, hD, ?_, hT, ?_⟩
    · intro c hc
      exact ⟨hws c (by simp [hc]), fun h => hL0 (h ▸ hc)⟩
    · intro c hc
      exact ⟨hws c (by simp [hc]), fun h => hD0 (h ▸ hc)⟩
    · intro c hc
      exact ⟨hws c (by simp [hc]), fun h => hT0 (h ▸ hc)⟩

/-- C29: `isValidEmail(s)` is true exactly when `s` holds no white space, holds exactly one
`@`, has at least one character before the `@`, and the part after the `@` holds a `.` that
is neither its first nor its last character. -/
theorem isValidEmail_iff_shape (s : JSString) : isValidEmail s = true ↔ EmailShape s := by
  rw [isValidEmail, Regex.test_iff, emailRegex_lang, emailSplit_iff_shape]

/-! ## Availability checks -/

theorem fieldFeedback_set (w : World) (element message type : JSString) :
    (setFieldFeedback w element message type).fieldFeedback element
      = some (feedbackOf message type) := by
  simp [setFieldFeedback, World.fieldFeedback, feedbackOf]

theorem requests_setFieldFeedback (w : World) (element message type : JSString) :
    (setFieldFeedback w element message type).requests = w.requests := rfl

/-- C23: when the local check fails no lookup is sent and the feedback is an error: for a
username of fewer than 3 characters (the empty one included) `validateUsername` sends no
request and, on a page with `#username-feedback`, writes its error message; for an e-mail
that `isValidEmail` rejects `validateEmail` sends no request and, on a page with
`#email-feedback`, writes "Email inválido" as an error. -/
theorem local_check_skips_lookup (w : World) (username email : JSString) (r : FetchResult) :
    (username.length < 3 →
      (validateUsername w username r).requests = w.requests ∧
      (w.hasElement (js "username-feedback") = true →
        (validateUsername w username r).fieldFeedback (js "username-feedback")
          = some (feedbackOf (js "Nome de usuário deve ter pelo menos 3 caracteres")
              (js "error")))) ∧
    (isValidEmail email = false →
      (validateEmail w email r).requests = w.requests ∧
      (w.hasElement (js "email-feedback") = true →
        (validateEmail w email r).fieldFeedback (js "email-feedback")
          = some (feedbackOf (js "Email inválido") (js "error")))) := by
  constructor
  · intro hlen
    have hshort : (username.isEmpty || decide (username.length < 3)) = true := by
      simp [hlen]
    by_cases he : w.hasElement (js "username-feedback") = true
    · simp only [validateUsername, he, hshort, Bool.not_true, Bool.false_eq_true, if_false,
        if_true]
      exact ⟨rfl, fun _ => fieldFeedback_set _ _ _ _⟩
    · simp only [validateUsername, he, Bool.not_false, Bool.not_eq_true'] at he ⊢
      simp [he]
  · intro hinv
    by_cases he : w.hasElement (js "email-feedback") = true
    · simp only [validateEmail, he, hinv, Bool.not_true, Bool.not_false, Bool.false_eq_true,
        if_false, if_true]
      exact ⟨rfl, fun _ => fieldFeedback_set _ _ _ _⟩
    · simp only [validateEmail, he, Bool.not_false, Bool.not_eq_true'] at he ⊢
      simp [he]

/-- C23 on the registration page: "ab" and "ana@example" get their error feedback and no
request is sent. -/
theorem local_check_skips_lookup_witness :
    (validateUsername registerPage (js "ab") FetchResult.rejected).requests
      = registerPage.requests ∧
    (validateUsername registerPage (js "ab") FetchResult.rejected).fieldFeedback
        (js "username-feedback")
      = some (feedbackOf (js "Nome de usuário deve ter pelo menos 3 caracteres") (js "error")) ∧
    (validateEmail registerPage (js "ana@example") FetchResult.rejected).requests
      = registerPage.requests ∧
    (validateEmail registerPage (js "ana@example") FetchResult.rejected).fieldFeedback
        (js "email-feedback")
      = some (feedbackOf (js "Email inválido") (js "error")) :=
  have h := local_check_skips_lookup registerPage (js "ab") (js "ana@example")
    FetchResult.rejected
  ⟨(h.1 (by decide)).1, (h.1 (by decide)).2 (by decide),
   (h.2 (by decide)).1, (h.2 (by decide)).2 (by decide)⟩

theorem availabilityFeedback_bool (w : World) (element : JSString) (request : Request)
    (ok : Bool) (data : JSVal) (b : Bool) (freeMessage takenMessage : JSString)
    (h : data.getProp (js "available") = some (JSVal.bool b)) :
    (availabilityFeedback w element request (FetchResult.response ok (some data)) freeMessage
        takenMessage).fieldFeedback element
      = some (if b then feedbackOf freeMessage (js "success")
              else feedbackOf takenMessage (js "error")) := by
  cases b with
  | true =>
    simp only [availabilityFeedback, h, JSVal.truthy, if_true, Outcome.catchWith, Outcome.world]
    exact fieldFeedback_set _ _ _ _
  | false =>
    simp only [availabilityFeedback, h, JSVal.truthy, Bool.false_eq_true, if_false,
      Outcome.catchWith, Outcome.world]
    exact fieldFeedback_set _ _ _ _

/-- C25: for a username of at least 3 characters, or an e-mail that `isValidEmail` accepts,
for which the lookup is sent (the value can be encoded in the URL) and answered by a 2xx
response whose body carries `available`, the feedback is of kind success when `available` is
true and of kind error with the "já está em uso" message when it is false. -/
theorem availability_feedback (w : World) (username email : JSString) (data : JSVal)
    (b : Bool) (h : data.getProp (js "available") = some (JSVal.bool b)) :
    (3 ≤ username.length → encodable username = true →
      w.hasElement (js "username-feedback") = true →
      (validateUsername w username (FetchResult.response true (some data))).fieldFeedback
          (js "username-feedback")
        = some (if b then feedbackOf (js "Nome de usuário disponível") (js "success")
                else feedbackOf (js "Nome de usuário já está em uso") (js "error"))) ∧
    (isValidEmail email = true → encodable email = true →
      w.hasElement (js "email-feedback") = true →
      (validateEmail w email (FetchResult.response true (some data))).fieldFeedback
          (js "email-feedback")
        = some (if b then feedbackOf (js "Email disponível") (js "success")
                else feedbackOf (js "Email já está em uso") (js "error"))) := by
  constructor
  · intro hlen henc he
    have hshort : (username.isEmpty || decide (username.length < 3)) = false := by
      have h1 : username.isEmpty = false := by
        cases username with
        | nil => simp at hlen
        | cons c rest => rfl
      have h2 : ¬ username.length < 3 := by omega
      simp [h1, h2]
    simp only [validateUsername, he, hshort, henc, Bool.not_true, Bool.false_eq_true, if_false]
    exact availabilityFeedback_bool _ _ _ _ _ _ _ _ h
  · intro hvalid henc he
    simp only [validateEmail, he, hvalid, henc, Bool.not_true, Bool.false_eq_true, if_false]
    exact availabilityFeedback_bool _ _ _ _ _ _ _ _ h

/-- C25 on the registration page: `available: true` gives the success feedback for the
username "analima", `available: false` the error feedback for the e-mail. -/
theorem availability_feedback_witness :
    (validateUsername registerPage (js "analima")
        (FetchResult.response true (some (JSVal.obj [(js "available", JSVal.bool true)])))
      ).fieldFeedback (js "username-feedback")
      = some (feedbackOf (js "Nome de usuário disponível") (js "success")) ∧
    (validateEmail registerPage (js "ana@example.org")
        (FetchResult.response true (some (JSVal.obj [(js "available", JSVal.bool false)])))
      ).fieldFeedback (js "email-feedback")
      = some (feedbackOf (js "Email já está em uso") (js "error")) :=
  ⟨(availability_feedback registerPage (js "analima") (js "ana@example.org")
      (JSVal.obj [(js "available", JSVal.bool true)]) true rfl).1
      (by decide) (by decide) (by decide),
   (availability_feedback registerPage (js "analima") (js "ana@example.org")
      (JSVal.obj [(js "available", JSVal.bool false)]) false rfl).2
      (by decide) (by decide) (by decide)⟩

/-- C24 (defect of the code): `validateUsername` and `validateEmail` never look at
`response.ok`. A 500 answer with the body `{"message": ...}` has no `available`, so the
feedback is the error "já está em uso" and not the empty one; the empty feedback is written
only when the request rejects or the body cannot be read. -/
theorem availability_error_response_reads_taken :
    (validateUsername registerPage (js "analima")
        (FetchResult.response false (some sampleErrorBody))).fieldFeedback
        (js "username-feedback")
      = some (feedbackOf (js "Nome de usuário já está em uso") (js "error")) ∧
    (validateEmail registerPage (js "ana@example.org")
        (FetchResult.response false (some sampleErrorBody))).fieldFeedback (js "email-feedback")
      = some (feedbackOf (js "Email já está em uso") (js "error")) ∧
    (validateUsername registerPage (js "analima") FetchResult.rejected).fieldFeedback
        (js "username-feedback")
      = some (feedbackOf (js "") (js "")) ∧
    (validateEmail registerPage (js "ana@example.org")
        (FetchResult.response false none)).fieldFeedback (js "email-feedback")
      = some (feedbackOf (js "") (js "")) := by
  decide

end AppState
